import Mathlib

/-!
Verification of the asset-custody core of the `bot_accounting` warehouse bot.

The data model mirrors `src/services/db.py` (tables `users`, `assets`,
`asset_instances`, `operations` plus the `PendingReturn` records used by the
return workflow), and the operations mirror the handlers in
`src/handlers/operations.py` and the background sweep in
`src/tasks/auto_signature.py`.  Persistent state is a `DB` value; every handler
is a pure function `DB → ... → DB × result`.  Quantities are integer units
(the handlers reject non-integer input), so `qty` is modelled as `Int` on
assets and `Nat` for requested amounts.

Repository DAO functions present in `src/services/db.py` are translated
directly; a handful of DAO functions are imported by the handlers but missing
from the packaged `db.py` — those are modelled from the spec and marked
`Modelled from the spec:` in their doc comments.
-/

namespace Bot

/-- User roles, from the `UserRole` enum in `src/services/db.py`. -/
inductive UserRole
  | system_admin
  | manager
  | storekeeper
  | foreman
  | worker
  | unknown
deriving DecidableEq

/-- User account status, from the `UserStatus` enum in `src/services/db.py`. -/
inductive UserStatus
  | active
  | blocked
deriving DecidableEq

/-- Asset/instance lifecycle state, from the `AssetState` enum in `src/services/db.py`. -/
inductive AssetState
  | in_use
  | in_stock
  | written_off
  | lost
  | reserved
deriving DecidableEq

/-- Operation types, from the `OperationType` enum in `src/services/db.py`.
`ret` stands for the source value `return`, which is a reserved word. -/
inductive OperationType
  | incoming
  | outgoing
  | writeoff
  | inventory
  | transfer
  | ret
deriving DecidableEq

/-- Status of a pending return request (strings `pending` / `approved` /
`rejected` in the handlers). -/
inductive PRStatus
  | pending
  | approved
  | rejected
deriving DecidableEq

/-- A row of the `users` table (the fields the custody workflow reads). -/
structure User where
  id : Nat
  telegram_id : Nat
  role : UserRole
  status : UserStatus
deriving DecidableEq

/-- A row of the `assets` table (the fields the custody workflow reads);
`return_photos` holds the photos attached by `add_asset_return_photo`
(modelled from the spec, see below). -/
structure Asset where
  id : Nat
  name : String
  qty : Int
  state : AssetState
  return_photos : List Nat
deriving DecidableEq

/-- A row of the `asset_instances` table. -/
structure AssetInstance where
  id : Nat
  asset_id : Nat
  distinctive_features : String
  assigned_to_user_id : Option Nat
  photo_file_id : Option Nat
  state : AssetState
deriving DecidableEq

/-- A row of the `operations` table, including the custody-signature fields
(`signed_by_user_id`, `signed_at`, `auto_signed`) referenced by
`confirm_receipt` and the auto-signature task. -/
structure Operation where
  id : Nat
  type : OperationType
  asset_id : Nat
  from_user_id : Option Nat
  to_user_id : Option Nat
  qty : Nat
  timestamp : Option Nat
  signed_by_user_id : Option Nat
  signed_at : Option Nat
  auto_signed : Bool
deriving DecidableEq

/-- A pending return request (`PendingReturn` in §3 of the spec). -/
structure PendingReturn where
  id : Nat
  from_user_id : Nat
  asset_id : Nat
  asset_name : String
  qty : Nat
  status : PRStatus
  resolved_by : Option Nat
deriving DecidableEq

/-- The persistent database state. `next_op_id` / `next_pr_id` model the
autoincrement primary keys used when appending operations / pending returns. -/
structure DB where
  users : List User
  assets : List Asset
  instances : List AssetInstance
  operations : List Operation
  pendingReturns : List PendingReturn
  next_op_id : Nat
  next_pr_id : Nat
deriving DecidableEq

/-- Update the first element satisfying `p` (SQLAlchemy `.filter(...).first()`
followed by a mutation; no match leaves the list unchanged). -/
def updateFirst (p : α → Bool) (f : α → α) : List α → List α
  | [] => []
  | x :: xs => if p x then f x :: xs else x :: updateFirst p f xs

/-- Function `get_user_by_telegram_id` from `src/services/db.py`. -/
def get_user_by_telegram_id (db : DB) (tg : Nat) : Option User :=
  db.users.find? (fun u => u.telegram_id == tg)

/-- Function `get_user_by_id` from `src/services/db.py`. -/
def get_user_by_id (db : DB) (uid : Nat) : Option User :=
  db.users.find? (fun u => u.id == uid)

/-- Function `get_asset_by_id` from `src/services/db.py`. -/
def get_asset_by_id (db : DB) (aid : Nat) : Option Asset :=
  db.assets.find? (fun a => a.id == aid)

/-- Function `get_operation_by_id` from `src/services/db.py`. -/
def get_operation_by_id (db : DB) (oid : Nat) : Option Operation :=
  db.operations.find? (fun o => o.id == oid)

/-- Field merge performed by `update_asset` in `src/services/db.py`: each
keyword argument is written only when it is not `None` (restricted to the
fields of the modelled `Asset` row; the handlers verified here only ever pass
`qty` and `state`). -/
def applyAssetUpd (name : Option String) (qty : Option Int)
    (state : Option AssetState) (a : Asset) : Asset :=
  { a with
    name := name.getD a.name
    qty := qty.getD a.qty
    state := state.getD a.state }

/-- Function `update_asset` from `src/services/db.py`: look up the asset row by id and
write exactly the non-`None` arguments. -/
def update_asset (db : DB) (asset_id : Nat) (name : Option String)
    (qty : Option Int) (state : Option AssetState) : DB :=
  { db with assets :=
      updateFirst (fun a => a.id == asset_id) (applyAssetUpd name qty state) db.assets }

/-- Field merge performed by `update_asset_instance` in `src/services/db.py`:
each keyword argument is written only when it is not `None`.  In particular a
`None` `assigned_to_user_id` argument leaves the stored assignment unchanged;
the function cannot clear an assignment back to null. -/
def applyInstUpd (df : Option String) (state : Option AssetState)
    (assigned_to_user_id : Option Nat) (photo_file_id : Option Nat)
    (i : AssetInstance) : AssetInstance :=
  { i with
    distinctive_features := df.getD i.distinctive_features
    state := state.getD i.state
    assigned_to_user_id :=
      match assigned_to_user_id with
      | none => i.assigned_to_user_id
      | some v => some v
    photo_file_id :=
      match photo_file_id with
      | none => i.photo_file_id
      | some v => some v }

/-- Function `update_asset_instance` from `src/services/db.py` (lines 912-942). -/
def update_asset_instance (db : DB) (instance_id : Nat) (df : Option String)
    (state : Option AssetState) (assigned_to_user_id : Option Nat)
    (photo_file_id : Option Nat) : DB :=
  { db with instances :=
      (updateFirst (fun i => i.id == instance_id)
        (applyInstUpd df state assigned_to_user_id photo_file_id) db.instances) }

/-- Function `create_operation` from `src/services/db.py`: append a new operation row;
`timestamp` takes the server default (the current time), the signature fields
start out null/false. -/
def create_operation (db : DB) (now : Nat) (type : OperationType)
    (asset_id : Nat) (qty : Nat) (from_user_id to_user_id : Option Nat) : DB :=
  { db with
    operations := db.operations ++
      [{ id := db.next_op_id, type := type, asset_id := asset_id,
         from_user_id := from_user_id, to_user_id := to_user_id, qty := qty,
         timestamp := some now, signed_by_user_id := none, signed_at := none,
         auto_signed := false }]
    next_op_id := db.next_op_id + 1 }

/-- Modelled from the spec: `get_available_asset_instances` is imported by the
handlers but missing from the packaged `db.py`.  Spec §4.2 `listAvailable`:
unassigned (`assigned_to_user_id is null`) instances of the asset, in creation
order, truncated to `limit`. -/
def get_available_asset_instances (db : DB) (asset_id : Nat) (limit : Nat) :
    List AssetInstance :=
  (db.instances.filter
    (fun i => i.asset_id == asset_id && i.assigned_to_user_id.isNone)).take limit

/-- Modelled from the spec: `get_asset_instances_assigned_to_user` is imported
by the handlers but missing from the packaged `db.py`.  Spec §4.2
`listAssignedTo`: instances currently assigned to the user, optionally
filtered by asset; the handlers additionally pass an optional `limit`. -/
def get_asset_instances_assigned_to_user (db : DB) (uid : Nat)
    (asset_id : Option Nat) (limit : Option Nat) : List AssetInstance :=
  let l := db.instances.filter
    (fun i => i.assigned_to_user_id == some uid &&
      (match asset_id with | none => true | some a => i.asset_id == a))
  match limit with
  | none => l
  | some n => l.take n

/-- Modelled from the spec: `update_operation_signature` is imported by the
handlers but missing from the packaged `db.py`.  Spec §3/§4.3: the signature
fields (`signed_by_user_id`, `signed_at`, `auto_signed`) of the addressed
operation are set in one atomic write. -/
def update_operation_signature (db : DB) (operation_id : Nat)
    (signed_by_user_id : Option Nat) (auto_signed : Bool) (now : Nat) : DB :=
  { db with operations :=
      (updateFirst (fun o => o.id == operation_id)
        (fun o => { o with signed_by_user_id := signed_by_user_id,
                           signed_at := some now, auto_signed := auto_signed })
        db.operations) }

/-- Predicate for the sweep fetch: an outgoing or transfer operation whose
`signed_at` is still null. -/
def isUnsignedOT (o : Operation) : Bool :=
  (o.type == OperationType.outgoing || o.type == OperationType.transfer)
    && o.signed_at.isNone

/-- Modelled from the spec: `get_unsigned_outgoing_operations` is imported by
the auto-signature task but missing from the packaged `db.py`.  Spec §4.4:
all outgoing/transfer operations where `signed_at is null`. -/
def get_unsigned_outgoing_operations (db : DB) : List Operation :=
  db.operations.filter isUnsignedOT

/-- Modelled from the spec: `get_return_approver` is imported by the handlers
but missing from the packaged `db.py`.  Design note §9: exactly one active
storekeeper if any exists, else one active system administrator, else none. -/
def get_return_approver (db : DB) : Option User :=
  match db.users.find? (fun u =>
      u.role == UserRole.storekeeper && u.status == UserStatus.active) with
  | some u => some u
  | none => db.users.find? (fun u =>
      u.role == UserRole.system_admin && u.status == UserStatus.active)

/-- Modelled from the spec: `create_pending_return` is imported by the handlers
but missing from the packaged `db.py`.  Spec §3/§4.3: append a new
`PendingReturn` in `pending` status with no resolver. -/
def create_pending_return (db : DB) (from_user_id asset_id : Nat)
    (asset_name : String) (qty : Nat) : DB :=
  { db with
    pendingReturns := db.pendingReturns ++
      [{ id := db.next_pr_id, from_user_id := from_user_id, asset_id := asset_id,
         asset_name := asset_name, qty := qty, status := PRStatus.pending,
         resolved_by := none }]
    next_pr_id := db.next_pr_id + 1 }

/-- Modelled from the spec: `get_pending_return_by_id` is imported by the
handlers but missing from the packaged `db.py`. -/
def get_pending_return_by_id (db : DB) (pid : Nat) : Option PendingReturn :=
  db.pendingReturns.find? (fun p => p.id == pid)

/-- Modelled from the spec: `update_pending_return_status` is imported by the
handlers but missing from the packaged `db.py`.  Sets the status and the
resolving user of the addressed pending return. -/
def update_pending_return_status (db : DB) (pid : Nat) (status : PRStatus)
    (resolved_by : Nat) : DB :=
  { db with pendingReturns :=
      (updateFirst (fun p => p.id == pid)
        (fun p => { p with status := status, resolved_by := some resolved_by })
        db.pendingReturns) }

/-- Modelled from the spec: `add_asset_return_photo` is imported by the
handlers but missing from the packaged `db.py`.  Attaches a return photo to
the asset record; it does not touch quantities, instances or operations. -/
def add_asset_return_photo (db : DB) (asset_id : Nat) (photo : Nat) : DB :=
  { db with assets :=
      (updateFirst (fun a => a.id == asset_id)
        (fun a => { a with return_photos := a.return_photos ++ [photo] })
        db.assets) }

/-- Workflow error kinds surfaced by the handlers (spec §7); only the kinds
exercised by the verified handlers are modelled. -/
inductive WfErr
  | notFound
  | insufficientStock
  | unauthorized
  | alreadyProcessed
deriving DecidableEq

/-- Result of `confirm_outgoing` in `src/handlers/operations.py` (lines
1271-1416): re-fetch the asset, fail before any write when the requested
quantity exceeds the aggregate `qty` or the number of available instances,
otherwise append the outgoing operation, assign the selected instances to the
recipient (state `in_use`), and decrement the asset quantity.  On failure the
raised error is caught after no write has happened, so the database is
returned unchanged. -/
def confirm_outgoing (db : DB) (now tg asset_id recipient_id : Nat) (qty : Nat) :
    DB × Option WfErr :=
  match get_user_by_telegram_id db tg with
  | none => (db, some WfErr.notFound)
  | some db_user =>
    match get_asset_by_id db asset_id with
    | none => (db, some WfErr.notFound)
    | some asset =>
      if asset.qty < (qty : Int) then (db, some WfErr.insufficientStock)
      else
        let available := get_available_asset_instances db asset_id qty
        if available.length < qty then (db, some WfErr.insufficientStock)
        else
          let db1 := create_operation db now OperationType.outgoing asset_id qty
            (some db_user.id) (some recipient_id)
          let db2 := (available.take qty).foldl
            (fun d i => update_asset_instance d i.id none
              (some AssetState.in_use) (some recipient_id) none) db1
          let db3 := update_asset db2 asset_id none (some (asset.qty - qty)) none
          (db3, none)

/-- Result of `transfer_confirm` in `src/handlers/operations.py` (lines
1804-1870): reassign the selected instances of the sender to the recipient (state
`in_use`), then append a transfer operation; the aggregate quantity of the asset is
not touched. -/
def transfer_confirm (db : DB) (now tg asset_id recipient_id : Nat) (qty : Nat) :
    DB × Option WfErr :=
  match get_user_by_telegram_id db tg with
  | none => (db, some WfErr.notFound)
  | some db_user =>
    let insts := get_asset_instances_assigned_to_user db db_user.id
      (some asset_id) (some qty)
    if insts.length < qty then (db, some WfErr.insufficientStock)
    else
      let db1 := (insts.take qty).foldl
        (fun d i => update_asset_instance d i.id none
          (some AssetState.in_use) (some recipient_id) none) db
      let db2 := create_operation db1 now OperationType.transfer asset_id qty
        (some db_user.id) (some recipient_id)
      (db2, none)

/-- Result of `confirm_receipt` in `src/handlers/operations.py` (lines
1522-1580): only the recipient of the operation may confirm; an operation whose
`signed_at` is already set is reported as already confirmed with no write;
otherwise the signature fields are written once (`auto_signed = false`). -/
def confirm_receipt (db : DB) (now tg operation_id : Nat) : DB × Option WfErr :=
  match get_user_by_telegram_id db tg with
  | none => (db, some WfErr.notFound)
  | some db_user =>
    match get_operation_by_id db operation_id with
    | none => (db, some WfErr.notFound)
    | some operation =>
      if operation.to_user_id ≠ some db_user.id then (db, some WfErr.unauthorized)
      else if operation.signed_at.isSome then (db, some WfErr.alreadyProcessed)
      else (update_operation_signature db operation_id (some db_user.id) false now,
            none)

/-- One pass of `auto_sign_operations` in `src/tasks/auto_signature.py` (lines
19-70): fetch all unsigned outgoing/transfer operations, and for each one whose
timestamp is present and at least 24 hours (86400 seconds) old, write the
signature attributed to the recipient of the operation with `auto_signed = true`. -/
def auto_sign_operations (db : DB) (now : Nat) : DB :=
  (get_unsigned_outgoing_operations db).foldl
    (fun d operation =>
      match operation.timestamp with
      | none => d
      | some t =>
        if t + 86400 ≤ now then
          update_operation_signature d operation.id operation.to_user_id true now
        else d)
    db

/-- Function `_can_approve_return` in `src/handlers/operations.py` (lines 2111-2113). -/
def can_approve_return (user_role : UserRole) : Bool :=
  user_role == UserRole.storekeeper || user_role == UserRole.system_admin

/-- Function `_do_approve_return` in `src/handlers/operations.py` (lines 2116-2145):
re-fetch the holdings of the requester; if they fall short, flip the request to
`rejected` and report failure; otherwise optionally attach the photo, update
the returned instances (state `in_stock`, passing a null assignment to
`update_asset_instance`), increment the asset quantity, append the return
operation, and mark the request approved. -/
def do_approve_return (db : DB) (now : Nat) (pending : PendingReturn)
    (db_user_id : Nat) (photo_file_id : Option Nat) : Bool × DB :=
  let insts := get_asset_instances_assigned_to_user db pending.from_user_id
    (some pending.asset_id) (some pending.qty)
  if insts.length < pending.qty then
    (false, update_pending_return_status db pending.id PRStatus.rejected db_user_id)
  else
    match get_asset_by_id db pending.asset_id with
    | none => (false, db)
    | some asset =>
      let db0 :=
        match photo_file_id with
        | some p => add_asset_return_photo db pending.asset_id p
        | none => db
      let db1 := (insts.take pending.qty).foldl
        (fun d i => update_asset_instance d i.id none
          (some AssetState.in_stock) none none) db0
      let db2 := update_asset db1 pending.asset_id none
        (some (asset.qty + pending.qty)) none
      let db3 := create_operation db2 now OperationType.ret pending.asset_id
        pending.qty (some pending.from_user_id) none
      (true, update_pending_return_status db3 pending.id PRStatus.approved db_user_id)

/-- Outcomes reported by the return approval/rejection handlers. -/
inductive ApproveRes
  | notFound
  | alreadyProcessed
  | unauthorized
  | autoRejected
  | photoRequested
  | approved
  | rejectedOk
  | failed
deriving DecidableEq

/-- Result of `approve_return_callback` in `src/handlers/operations.py` (lines
2148-2232): a non-pending request is reported as already processed before any
other check; the caller must hold an approving role and be the designated
approver; approval re-validates the holdings of the requester and auto-rejects when
they fall short; a storekeeper approver is asked for a photo (no effect yet),
while an approval by the system administrator is applied immediately. -/
def approve_return_callback (db : DB) (now tg pending_id : Nat) : DB × ApproveRes :=
  match get_pending_return_by_id db pending_id with
  | none => (db, ApproveRes.notFound)
  | some pending =>
    if pending.status ≠ PRStatus.pending then (db, ApproveRes.alreadyProcessed)
    else
      match get_user_by_telegram_id db tg with
      | none => (db, ApproveRes.unauthorized)
      | some db_user =>
        if ¬ can_approve_return db_user.role then (db, ApproveRes.unauthorized)
        else
          match get_return_approver db with
          | none => (db, ApproveRes.unauthorized)
          | some approver =>
            if approver.id ≠ db_user.id then (db, ApproveRes.unauthorized)
            else
              let insts := get_asset_instances_assigned_to_user db
                pending.from_user_id (some pending.asset_id) (some pending.qty)
              if insts.length < pending.qty then
                (update_pending_return_status db pending_id PRStatus.rejected
                  db_user.id, ApproveRes.autoRejected)
              else if db_user.role = UserRole.storekeeper then
                (db, ApproveRes.photoRequested)
              else
                let r := do_approve_return db now pending db_user.id none
                if r.1 then (r.2, ApproveRes.approved) else (r.2, ApproveRes.failed)

/-- Result of `storekeeper_return_photo_handler` in
`src/handlers/operations.py` (lines 2235-2295): the caller must be the
designated storekeeper approver; a missing or non-pending request is reported
as already processed; otherwise the approval effect is applied together with
the photo. -/
def storekeeper_return_photo_handler (db : DB) (now tg pending_id photo : Nat) :
    DB × ApproveRes :=
  match get_user_by_telegram_id db tg with
  | none => (db, ApproveRes.unauthorized)
  | some db_user =>
    if db_user.role ≠ UserRole.storekeeper then (db, ApproveRes.unauthorized)
    else
      match get_return_approver db with
      | none => (db, ApproveRes.unauthorized)
      | some approver =>
        if approver.id ≠ db_user.id then (db, ApproveRes.unauthorized)
        else
          match get_pending_return_by_id db pending_id with
          | none => (db, ApproveRes.alreadyProcessed)
          | some pending =>
            if pending.status ≠ PRStatus.pending then (db, ApproveRes.alreadyProcessed)
            else
              let r := do_approve_return db now pending db_user.id (some photo)
              if r.1 then (r.2, ApproveRes.approved) else (r.2, ApproveRes.failed)

/-- Result of `reject_return_callback` in `src/handlers/operations.py` (lines
2298-2345): a non-pending request is reported as already processed; only the
designated approver may reject; rejection flips the status and touches nothing
else. -/
def reject_return_callback (db : DB) (tg pending_id : Nat) : DB × ApproveRes :=
  match get_pending_return_by_id db pending_id with
  | none => (db, ApproveRes.notFound)
  | some pending =>
    if pending.status ≠ PRStatus.pending then (db, ApproveRes.alreadyProcessed)
    else
      match get_user_by_telegram_id db tg with
      | none => (db, ApproveRes.unauthorized)
      | some db_user =>
        if ¬ can_approve_return db_user.role then (db, ApproveRes.unauthorized)
        else
          match get_return_approver db with
          | none => (db, ApproveRes.unauthorized)
          | some approver =>
            if approver.id ≠ db_user.id then (db, ApproveRes.unauthorized)
            else
              (update_pending_return_status db pending_id PRStatus.rejected
                db_user.id, ApproveRes.rejectedOk)

/-- Result of `return_confirm` in `src/handlers/operations.py` (lines
2016-2100), phase 1 of the return workflow: check the requester still holds
the quantity, check a designated approver exists, then create a
`PendingReturn` in `pending` status; nothing is moved yet. -/
def return_confirm (db : DB) (tg asset_id : Nat) (asset_name : String)
    (qty : Nat) : DB × Option WfErr :=
  match get_user_by_telegram_id db tg with
  | none => (db, some WfErr.notFound)
  | some db_user =>
    let insts := get_asset_instances_assigned_to_user db db_user.id
      (some asset_id) (some qty)
    if insts.length < qty then (db, some WfErr.insufficientStock)
    else
      match get_return_approver db with
      | none => (db, some WfErr.notFound)
      | some _ => (create_pending_return db db_user.id asset_id asset_name qty, none)

/-- Auxiliary closed form of the signature write performed by the sweep. -/
def signAuto (now : Nat) (sb : Option Nat) (o : Operation) : Operation :=
  { o with signed_by_user_id := sb, signed_at := some now, auto_signed := true }

/-- An operation is eligible for auto-signing when its timestamp is present
and at least 24 hours old. -/
def eligibleB (now : Nat) (o : Operation) : Bool :=
  match o.timestamp with
  | none => false
  | some t => t + 86400 ≤ now

/-- Warehouse-available quantity of an asset, when the asset exists. -/
def asset_qty (db : DB) (aid : Nat) : Option Int :=
  (get_asset_by_id db aid).map Asset.qty

/-- Instance of an asset that is still live, i.e. neither written off nor
lost. -/
def isLiveOf (aid : Nat) (i : AssetInstance) : Bool :=
  i.asset_id == aid
    && !(i.state == AssetState.written_off || i.state == AssetState.lost)

/-- Conservation check of spec §8 for one asset: the aggregate quantity plus
the number of live assigned instances equals the number of live instances. -/
def conservationB (db : DB) (aid : Nat) : Bool :=
  match get_asset_by_id db aid with
  | none => true
  | some a =>
    let live := db.instances.filter (isLiveOf aid)
    a.qty + ((live.filter (fun i => i.assigned_to_user_id.isSome)).length : Int)
      == (live.length : Int)

/-- Transition discipline for pending returns between two database states:
every request keeps its status, or moved out of `pending` into one of the two
terminal states `approved` / `rejected`. -/
def pr_transitions_ok (db db2 : DB) : Prop :=
  db2.pendingReturns.length = db.pendingReturns.length
  ∧ ∀ i : Nat, ∀ h1 : i < db.pendingReturns.length,
      ∀ h2 : i < db2.pendingReturns.length,
      (db2.pendingReturns[i]).status = (db.pendingReturns[i]).status
      ∨ ((db.pendingReturns[i]).status = PRStatus.pending
         ∧ ((db2.pendingReturns[i]).status = PRStatus.approved
            ∨ (db2.pendingReturns[i]).status = PRStatus.rejected))

/-- Sample database used by the concrete witnesses: an administrator (id 1),
a worker (id 2) holding one instance of asset 1, a storekeeper (id 3, the
designated return approver), another worker (id 4); one unsigned outgoing
operation, one signed transfer operation; one pending return that is
satisfiable, one already approved, and one pending return asking for more
than the worker holds. -/
def dbW : DB :=
  { users :=
      [{ id := 1, telegram_id := 101, role := UserRole.system_admin,
         status := UserStatus.active },
       { id := 2, telegram_id := 102, role := UserRole.worker,
         status := UserStatus.active },
       { id := 3, telegram_id := 103, role := UserRole.storekeeper,
         status := UserStatus.active },
       { id := 4, telegram_id := 104, role := UserRole.worker,
         status := UserStatus.active }]
    assets :=
      [{ id := 1, name := "Hammer", qty := 1, state := AssetState.in_stock,
         return_photos := [] }]
    instances :=
      [{ id := 1, asset_id := 1, distinctive_features := "a",
         assigned_to_user_id := some 2, photo_file_id := none,
         state := AssetState.in_use },
       { id := 2, asset_id := 1, distinctive_features := "b",
         assigned_to_user_id := none, photo_file_id := none,
         state := AssetState.in_stock }]
    operations :=
      [{ id := 1, type := OperationType.outgoing, asset_id := 1,
         from_user_id := some 1, to_user_id := some 2, qty := 1,
         timestamp := some 0, signed_by_user_id := none, signed_at := none,
         auto_signed := false },
       { id := 2, type := OperationType.transfer, asset_id := 1,
         from_user_id := some 2, to_user_id := some 4, qty := 1,
         timestamp := some 0, signed_by_user_id := some 4, signed_at := some 5,
         auto_signed := false }]
    pendingReturns :=
      [{ id := 1, from_user_id := 2, asset_id := 1, asset_name := "Hammer",
         qty := 1, status := PRStatus.pending, resolved_by := none },
       { id := 2, from_user_id := 2, asset_id := 1, asset_name := "Hammer",
         qty := 1, status := PRStatus.approved, resolved_by := some 1 },
       { id := 3, from_user_id := 2, asset_id := 1, asset_name := "Hammer",
         qty := 5, status := PRStatus.pending, resolved_by := none }]
    next_op_id := 3
    next_pr_id := 4 }

/-- Second sample database: no storekeeper, so the designated return approver
is the system administrator (id 1); the worker (id 2) holds one instance. -/
def dbW2 : DB :=
  { users :=
      [{ id := 1, telegram_id := 101, role := UserRole.system_admin,
         status := UserStatus.active },
       { id := 2, telegram_id := 102, role := UserRole.worker,
         status := UserStatus.active }]
    assets :=
      [{ id := 1, name := "Hammer", qty := 0, state := AssetState.in_stock,
         return_photos := [] }]
    instances :=
      [{ id := 1, asset_id := 1, distinctive_features := "a",
         assigned_to_user_id := some 2, photo_file_id := none,
         state := AssetState.in_use }]
    operations := []
    pendingReturns :=
      [{ id := 1, from_user_id := 2, asset_id := 1, asset_name := "Hammer",
         qty := 1, status := PRStatus.pending, resolved_by := none }]
    next_op_id := 1
    next_pr_id := 2 }

/-- Starting database for the round-trip scenario of spec §8: an empty-handed
worker (id 2), an administrator (id 1), and asset 1 with quantity 2 and two
available instances. -/
def dbC3 : DB :=
  { users :=
      [{ id := 1, telegram_id := 101, role := UserRole.system_admin,
         status := UserStatus.active },
       { id := 2, telegram_id := 102, role := UserRole.worker,
         status := UserStatus.active }]
    assets :=
      [{ id := 1, name := "Drill", qty := 2, state := AssetState.in_stock,
         return_photos := [] }]
    instances :=
      [{ id := 1, asset_id := 1, distinctive_features := "a",
         assigned_to_user_id := none, photo_file_id := none,
         state := AssetState.in_stock },
       { id := 2, asset_id := 1, distinctive_features := "b",
         assigned_to_user_id := none, photo_file_id := none,
         state := AssetState.in_stock }]
    operations := []
    pendingReturns := []
    next_op_id := 1
    next_pr_id := 1 }

/-- State of `dbC3` after issuing 2 units of asset 1 to the worker (id 2). -/
def dbC3_issued : DB := (confirm_outgoing dbC3 0 101 1 2 2).1

/-- State after the worker has requested a return of the 2 units. -/
def dbC3_requested : DB := (return_confirm dbC3_issued 102 1 "Drill" 2).1

/-- State after the administrator approved the return request. -/
def dbC3_final : DB := (approve_return_callback dbC3_requested 1 101 1).1

theorem updateFirst_length (p : α → Bool) (f : α → α) (l : List α) :
    (updateFirst p f l).length = l.length := by
  induction l with
  | nil => rfl
  | cons x xs ih =>
    simp only [updateFirst]
    split <;> simp [ih]

theorem updateFirst_id (p : α → Bool) (l : List α) :
    updateFirst p (fun x => x) l = l := by
  induction l with
  | nil => rfl
  | cons x xs ih =>
    simp only [updateFirst]
    split <;> simp [ih]

theorem updateFirst_map_of_preserve (p : α → Bool) (f : α → α) (g : α → β)
    (hg : ∀ y, g (f y) = g y) (l : List α) :
    (updateFirst p f l).map g = l.map g := by
  induction l with
  | nil => rfl
  | cons x xs ih =>
    simp only [updateFirst]
    split <;> simp [ih, hg]

theorem find?_updateFirst (p : α → Bool) (f : α → α) (l : List α) (a : α)
    (h : l.find? p = some a) (hpf : ∀ y, p y = true → p (f y) = true) :
    (updateFirst p f l).find? p = some (f a) := by
  induction l with
  | nil => simp at h
  | cons x xs ih =>
    by_cases hx : p x = true
    · rw [List.find?_cons_of_pos _ hx] at h
      injection h with h2
      subst h2
      simp only [updateFirst, if_pos hx]
      exact List.find?_cons_of_pos _ (hpf x hx)
    · rw [List.find?_cons_of_neg _ hx] at h
      simp only [updateFirst, if_neg hx]
      rw [List.find?_cons_of_neg _ hx]
      exact ih h

theorem updateFirst_getElem (p : α → Bool) (f : α → α) (l : List α) (i : Nat)
    (h1 : i < l.length) (h2 : i < (updateFirst p f l).length) :
    (updateFirst p f l)[i] = l[i] ∨
      ((updateFirst p f l)[i] = f l[i] ∧ l.find? p = some l[i]) := by
  induction l generalizing i with
  | nil => simp at h1
  | cons x xs ih =>
    by_cases hx : p x = true
    · cases i with
      | zero =>
        right
        refine ⟨?_, ?_⟩
        · simp [updateFirst, if_pos hx]
        · simp [List.find?_cons_of_pos _ hx]
      | succ n =>
        left
        simp [updateFirst, if_pos hx]
    · cases i with
      | zero =>
        left
        simp [updateFirst, if_neg hx]
      | succ n =>
        have h1n : n < xs.length := by simpa using h1
        have h2n : n < (updateFirst p f xs).length := by
          rw [updateFirst_length]
          exact h1n
        have hrec := ih n h1n h2n
        have hcons : updateFirst p f (x :: xs) = x :: updateFirst p f xs := by
          simp [updateFirst, if_neg hx]
        simp only [hcons, List.getElem_cons_succ, List.find?_cons_of_neg _ hx]
        exact hrec

theorem updateFirst_key_eq_map (key : α → Nat) (k : Nat) (f : α → α)
    (l : List α) (h : (l.map key).Nodup) :
    updateFirst (fun y => key y == k) f l
      = l.map fun y => if key y == k then f y else y := by
  induction l with
  | nil => rfl
  | cons x xs ih =>
    simp only [List.map_cons, List.nodup_cons] at h
    by_cases hx : key x = k
    · have hxb : (key x == k) = true := by simp [hx]
      simp only [updateFirst, hxb, if_true, List.map_cons, if_pos]
      have htail : ∀ y ∈ xs, (if key y == k then f y else y) = y := by
        intro y hy
        have hy2 : key y ≠ k := by
          intro e
          exact h.1 (by
            rw [hx]
            rw [← e]
            exact List.mem_map_of_mem key hy)
        simp [hy2]
      rw [List.map_congr_left htail]
      simp
    · have hxb : (key x == k) = false := by simp [hx]
      simp only [updateFirst, hxb, List.map_cons, if_neg, Bool.false_eq_true,
        not_false_eq_true, if_false]
      rw [ih h.2]

theorem foldl_updateFirst_byKey (key : α → Nat) (f : α → α → α)
    (hf : ∀ x y, key (f x y) = key y) (sel : List α) :
    ∀ l : List α, (l.map key).Nodup → (sel.map key).Nodup →
      (∀ x ∈ sel, x ∈ l) →
      sel.foldl (fun acc x => updateFirst (fun y => key y == key x) (f x) acc) l
        = l.map fun y => if sel.any (fun x => key x == key y) then f y y else y := by
  induction sel with
  | nil =>
    intro l _ _ _
    simp
  | cons x sel2 ih =>
    intro l hl hsel hsub
    simp only [List.map_cons, List.nodup_cons] at hsel
    have hxl : x ∈ l := hsub x (List.mem_cons_self x sel2)
    simp only [List.foldl_cons]
    rw [updateFirst_key_eq_map key (key x) (f x) l hl]
    have hpres : ∀ y, key (if key y == key x then f x y else y) = key y := by
      intro y
      by_cases h : key y = key x <;> simp [h, hf]
    have hmapkey :
        (l.map fun y => if key y == key x then f x y else y).map key = l.map key := by
      rw [List.map_map]
      exact List.map_congr_left fun y _ => hpres y
    have hl1 : ((l.map fun y => if key y == key x then f x y else y).map key).Nodup := by
      rw [hmapkey]
      exact hl
    have hsub2 : ∀ z ∈ sel2, z ∈ l.map fun y => if key y == key x then f x y else y := by
      intro z hz
      have hzl : z ∈ l := hsub z (List.mem_cons_of_mem x hz)
      have hzk : key z ≠ key x := by
        intro e
        exact hsel.1 (e ▸ List.mem_map_of_mem key hz)
      have : (if key z == key x then f x z else z) = z := by simp [hzk]
      rw [← this]
      exact List.mem_map_of_mem _ hzl
    rw [ih _ hl1 hsel.2 hsub2, List.map_map]
    refine List.map_congr_left ?_
    intro y hy
    by_cases hk : key y = key x
    · have hyx : y = x := List.inj_on_of_nodup_map hl hy hxl hk
      subst hyx
      have hnot2 : sel2.any (fun x2 => key x2 == key (f y y)) = false := by
        rw [hf]
        by_contra hcon
        rw [Bool.not_eq_false, List.any_eq_true] at hcon
        obtain ⟨z, hz, hzk⟩ := hcon
        rw [beq_iff_eq] at hzk
        exact hsel.1 (by
          rw [← hzk]
          exact List.mem_map_of_mem key hz)
      have hnone : ¬ ∃ z ∈ sel2, key z = key (f y y) := by
        intro hcon
        obtain ⟨z, hz, hzk⟩ := hcon
        have : sel2.any (fun x2 => key x2 == key (f y y)) = true :=
          List.any_eq_true.mpr ⟨z, hz, by simp [hzk]⟩
        rw [hnot2] at this
        exact Bool.false_ne_true this
      simp [hnot2, hnone]
    · have hxyb : (key x == key y) = false := by
        simp only [beq_eq_false_iff_ne, ne_eq]
        intro e
        exact hk e.symm
      simp [hk, hxyb]

@[simp] theorem update_asset_users (db : DB) (aid : Nat) (n : Option String)
    (q : Option Int) (s : Option AssetState) :
    (update_asset db aid n q s).users = db.users := rfl

@[simp] theorem update_asset_instances (db : DB) (aid : Nat) (n : Option String)
    (q : Option Int) (s : Option AssetState) :
    (update_asset db aid n q s).instances = db.instances := rfl

@[simp] theorem update_asset_operations (db : DB) (aid : Nat) (n : Option String)
    (q : Option Int) (s : Option AssetState) :
    (update_asset db aid n q s).operations = db.operations := rfl

@[simp] theorem update_asset_pendingReturns (db : DB) (aid : Nat)
    (n : Option String) (q : Option Int) (s : Option AssetState) :
    (update_asset db aid n q s).pendingReturns = db.pendingReturns := rfl

@[simp] theorem update_asset_instance_users (db : DB) (iid : Nat)
    (df : Option String) (st : Option AssetState) (au ph : Option Nat) :
    (update_asset_instance db iid df st au ph).users = db.users := rfl

@[simp] theorem update_asset_instance_assets (db : DB) (iid : Nat)
    (df : Option String) (st : Option AssetState) (au ph : Option Nat) :
    (update_asset_instance db iid df st au ph).assets = db.assets := rfl

@[simp] theorem update_asset_instance_operations (db : DB) (iid : Nat)
    (df : Option String) (st : Option AssetState) (au ph : Option Nat) :
    (update_asset_instance db iid df st au ph).operations = db.operations := rfl

@[simp] theorem update_asset_instance_pendingReturns (db : DB) (iid : Nat)
    (df : Option String) (st : Option AssetState) (au ph : Option Nat) :
    (update_asset_instance db iid df st au ph).pendingReturns = db.pendingReturns := rfl

@[simp] theorem update_operation_signature_assets (db : DB) (oid : Nat)
    (sb : Option Nat) (au : Bool) (now : Nat) :
    (update_operation_signature db oid sb au now).assets = db.assets := rfl

@[simp] theorem update_operation_signature_instances (db : DB) (oid : Nat)
    (sb : Option Nat) (au : Bool) (now : Nat) :
    (update_operation_signature db oid sb au now).instances = db.instances := rfl

@[simp] theorem update_operation_signature_pendingReturns (db : DB) (oid : Nat)
    (sb : Option Nat) (au : Bool) (now : Nat) :
    (update_operation_signature db oid sb au now).pendingReturns
      = db.pendingReturns := rfl

@[simp] theorem update_pending_return_status_assets (db : DB) (pid : Nat)
    (s : PRStatus) (rb : Nat) :
    (update_pending_return_status db pid s rb).assets = db.assets := rfl

@[simp] theorem update_pending_return_status_instances (db : DB) (pid : Nat)
    (s : PRStatus) (rb : Nat) :
    (update_pending_return_status db pid s rb).instances = db.instances := rfl

@[simp] theorem update_pending_return_status_operations (db : DB) (pid : Nat)
    (s : PRStatus) (rb : Nat) :
    (update_pending_return_status db pid s rb).operations = db.operations := rfl

@[simp] theorem add_asset_return_photo_instances (db : DB) (aid p : Nat) :
    (add_asset_return_photo db aid p).instances = db.instances := rfl

@[simp] theorem add_asset_return_photo_operations (db : DB) (aid p : Nat) :
    (add_asset_return_photo db aid p).operations = db.operations := rfl

@[simp] theorem add_asset_return_photo_pendingReturns (db : DB) (aid p : Nat) :
    (add_asset_return_photo db aid p).pendingReturns = db.pendingReturns := rfl

@[simp] theorem create_operation_assets (db : DB) (now : Nat) (t : OperationType)
    (aid q : Nat) (fu tu : Option Nat) :
    (create_operation db now t aid q fu tu).assets = db.assets := rfl

@[simp] theorem create_operation_instances (db : DB) (now : Nat)
    (t : OperationType) (aid q : Nat) (fu tu : Option Nat) :
    (create_operation db now t aid q fu tu).instances = db.instances := rfl

@[simp] theorem create_operation_pendingReturns (db : DB) (now : Nat)
    (t : OperationType) (aid q : Nat) (fu tu : Option Nat) :
    (create_operation db now t aid q fu tu).pendingReturns = db.pendingReturns := rfl

/-- The batched instance update used by issue/transfer/return folds down to a
single `updateFirst` fold at the list level; no other database component is
touched. -/
theorem foldl_update_asset_instance (df : Option String) (st : Option AssetState)
    (au ph : Option Nat) (sel : List AssetInstance) :
    ∀ db : DB,
    sel.foldl (fun d i => update_asset_instance d i.id df st au ph) db
      = { db with instances :=
          (sel.foldl (fun acc i => updateFirst (fun y => y.id == i.id)
            (applyInstUpd df st au ph) acc) db.instances) } := by
  induction sel with
  | nil => intro db; rfl
  | cons x xs ih =>
    intro db
    simp only [List.foldl_cons]
    rw [ih]
    rfl

/-- With distinct instance ids, the batched instance update rewrites exactly
the selected instances, pointwise. -/
theorem foldl_update_asset_instance_char (st : Option AssetState)
    (au : Option Nat) (sel : List AssetInstance) (db : DB)
    (hdb : (db.instances.map AssetInstance.id).Nodup)
    (hsel : (sel.map AssetInstance.id).Nodup)
    (hsub : ∀ x ∈ sel, x ∈ db.instances) :
    sel.foldl (fun d i => update_asset_instance d i.id none st au none) db
      = { db with instances :=
          (db.instances.map fun y =>
            if sel.any (fun x => x.id == y.id) then applyInstUpd none st au none y
            else y) } := by
  rw [foldl_update_asset_instance]
  congr 1
  exact foldl_updateFirst_byKey AssetInstance.id
    (fun _ y => applyInstUpd none st au none y) (fun _ _ => rfl)
    sel db.instances hdb hsel hsub

/-- The per-operation conditional signature write, folded down to the
list of operations. -/
theorem foldl_auto_sign (now : Nat) (L : List Operation) :
    ∀ db : DB,
    L.foldl (fun d operation =>
      match operation.timestamp with
      | none => d
      | some t =>
        if t + 86400 ≤ now then
          update_operation_signature d operation.id operation.to_user_id true now
        else d) db
      = { db with operations :=
          (L.foldl (fun acc op => updateFirst (fun o => o.id == op.id)
            (fun o => if eligibleB now op then signAuto now op.to_user_id o else o)
            acc) db.operations) } := by
  induction L with
  | nil => intro db; rfl
  | cons x xs ih =>
    intro db
    simp only [List.foldl_cons]
    have hid : ∀ acc : List Operation, eligibleB now x = false →
        updateFirst (fun o => o.id == x.id)
          (fun o => if eligibleB now x then signAuto now x.to_user_id o else o) acc
          = acc := by
      intro acc he
      rw [show (fun o => if eligibleB now x then signAuto now x.to_user_id o else o)
          = fun o => o from ?_]
      · exact updateFirst_id _ acc
      · funext o
        rw [he]
        simp
    have hstep : (match x.timestamp with
        | none => db
        | some t =>
          if t + 86400 ≤ now then
            update_operation_signature db x.id x.to_user_id true now
          else db)
        = (if eligibleB now x then
            update_operation_signature db x.id x.to_user_id true now
          else db) := by
      cases hts : x.timestamp with
      | none => simp [eligibleB, hts]
      | some t =>
        by_cases hle : t + 86400 ≤ now <;> simp [eligibleB, hts, hle]
    rw [hstep]
    by_cases he : eligibleB now x = true
    · rw [if_pos he, ih]
      rw [show (fun o => if eligibleB now x then signAuto now x.to_user_id o else o)
          = fun o => signAuto now x.to_user_id o from ?_]
      · rfl
      · funext o
        rw [he]
        simp
    · rw [if_neg he, ih]
      rw [hid db.operations (by simpa using he)]

theorem filter_any_key (key : α → Nat) (p : α → Bool) (l : List α)
    (h : (l.map key).Nodup) (y : α) (hy : y ∈ l) :
    ((l.filter p).any fun x => key x == key y) = p y := by
  cases hp : p y
  · rw [List.any_eq_false]
    intro x hx
    have hx2 := List.mem_filter.mp hx
    intro hbe
    rw [beq_iff_eq] at hbe
    have hxy : x = y := List.inj_on_of_nodup_map h hx2.1 hy hbe
    rw [hxy] at hx2
    rw [hx2.2] at hp
    simp at hp
  · rw [List.any_eq_true]
    exact ⟨y, List.mem_filter.mpr ⟨hy, hp⟩, by simp⟩

/-- The per-operation body of the sweep, restated through `eligibleB`. -/
theorem auto_sign_step_eq (now : Nat) (db : DB) (x : Operation) :
    (match x.timestamp with
      | none => db
      | some t =>
        if t + 86400 ≤ now then
          update_operation_signature db x.id x.to_user_id true now
        else db)
      = if eligibleB now x then
          update_operation_signature db x.id x.to_user_id true now
        else db := by
  cases hts : x.timestamp with
  | none => simp [eligibleB, hts]
  | some t => by_cases hle : t + 86400 ≤ now <;> simp [eligibleB, hts, hle]

theorem foldl_auto_sign_skip (now : Nat) (L : List Operation)
    (h : ∀ op ∈ L, eligibleB now op = false) :
    ∀ db : DB,
    L.foldl (fun d operation =>
      match operation.timestamp with
      | none => d
      | some t =>
        if t + 86400 ≤ now then
          update_operation_signature d operation.id operation.to_user_id true now
        else d) db = db := by
  induction L with
  | nil => intro db; rfl
  | cons x xs ih =>
    intro db
    simp only [List.foldl_cons]
    rw [auto_sign_step_eq, if_neg (by simp [h x (List.mem_cons_self x xs)])]
    exact ih (fun op hop => h op (List.mem_cons_of_mem x hop)) db

/-- Effect of one sweep pass on duplicate-free operation ids: exactly the
unsigned outgoing/transfer operations whose timestamp is 24 hours old or more
receive the auto-signature attributed to their recipient; all other rows and
components are untouched. -/
theorem auto_sign_operations_char (db : DB) (now : Nat)
    (h : (db.operations.map Operation.id).Nodup) :
    auto_sign_operations db now
      = { db with operations :=
          (db.operations.map fun o =>
            if isUnsignedOT o && eligibleB now o then signAuto now o.to_user_id o
            else o) } := by
  unfold auto_sign_operations
  rw [foldl_auto_sign]
  congr 1
  have hsub : ∀ x ∈ get_unsigned_outgoing_operations db, x ∈ db.operations :=
    fun x hx => (List.mem_filter.mp hx).1
  have hselkeys : ((get_unsigned_outgoing_operations db).map Operation.id).Nodup := by
    have hsl : List.Sublist (get_unsigned_outgoing_operations db) db.operations :=
      List.filter_sublist db.operations
    exact List.Nodup.sublist (List.Sublist.map Operation.id hsl) h
  rw [show get_unsigned_outgoing_operations db
      = db.operations.filter isUnsignedOT from rfl] at hsub hselkeys ⊢
  rw [foldl_updateFirst_byKey Operation.id
    (fun x y => if eligibleB now x then signAuto now x.to_user_id y else y)
    (fun x y => by by_cases hx : eligibleB now x = true <;> simp [hx, signAuto])
    (db.operations.filter isUnsignedOT) db.operations h hselkeys hsub]
  refine List.map_congr_left ?_
  intro y hy
  rw [filter_any_key Operation.id isUnsignedOT db.operations h y hy]
  by_cases h1 : isUnsignedOT y = true <;> by_cases h2 : eligibleB now y = true <;>
    simp [h1, h2]

theorem get_asset_by_id_update_asset (db : DB) (aid : Nat) (n : Option String)
    (q : Option Int) (s : Option AssetState) (a : Asset)
    (h : get_asset_by_id db aid = some a) :
    get_asset_by_id (update_asset db aid n q s) aid
      = some (applyAssetUpd n q s a) :=
  find?_updateFirst _ _ _ _ h (fun _ hy => hy)

theorem get_asset_by_id_add_photo (db : DB) (aid ph : Nat) (a : Asset)
    (h : get_asset_by_id db aid = some a) :
    get_asset_by_id (add_asset_return_photo db aid ph) aid
      = some { a with return_photos := a.return_photos ++ [ph] } :=
  find?_updateFirst _ _ _ _ h (fun _ hy => hy)

theorem get_pending_return_by_id_update (db : DB) (pid : Nat) (s : PRStatus)
    (rb : Nat) (p : PendingReturn)
    (h : get_pending_return_by_id db pid = some p) :
    get_pending_return_by_id (update_pending_return_status db pid s rb) pid
      = some { p with status := s, resolved_by := some rb } :=
  find?_updateFirst _ _ _ _ h (fun _ hy => hy)

theorem foldl_update_asset_instance_assets (df : Option String)
    (st : Option AssetState) (au ph : Option Nat) (sel : List AssetInstance)
    (db : DB) :
    (sel.foldl (fun d i => update_asset_instance d i.id df st au ph) db).assets
      = db.assets := by
  rw [foldl_update_asset_instance]

theorem foldl_update_asset_instance_operations (df : Option String)
    (st : Option AssetState) (au ph : Option Nat) (sel : List AssetInstance)
    (db : DB) :
    (sel.foldl (fun d i => update_asset_instance d i.id df st au ph) db).operations
      = db.operations := by
  rw [foldl_update_asset_instance]

theorem foldl_update_asset_instance_pendingReturns (df : Option String)
    (st : Option AssetState) (au ph : Option Nat) (sel : List AssetInstance)
    (db : DB) :
    (sel.foldl (fun d i => update_asset_instance d i.id df st au ph) db).pendingReturns
      = db.pendingReturns := by
  rw [foldl_update_asset_instance]

theorem foldl_update_asset_instance_users (df : Option String)
    (st : Option AssetState) (au ph : Option Nat) (sel : List AssetInstance)
    (db : DB) :
    (sel.foldl (fun d i => update_asset_instance d i.id df st au ph) db).users
      = db.users := by
  rw [foldl_update_asset_instance]

theorem foldl_update_asset_instance_next_op_id (df : Option String)
    (st : Option AssetState) (au ph : Option Nat) (sel : List AssetInstance)
    (db : DB) :
    (sel.foldl (fun d i => update_asset_instance d i.id df st au ph) db).next_op_id
      = db.next_op_id := by
  rw [foldl_update_asset_instance]

/-- C10: `update_asset_instance` writes only the fields whose arguments are
not null — a `None`-valued argument leaves the corresponding stored field of
every instance unchanged — and in particular the call can never clear the
`assigned_to_user_id` of an instance back to null: if the field is null after the
call, it was already null before. -/
theorem update_asset_instance_none_is_noop (db : DB) (iid : Nat)
    (df : Option String) (st : Option AssetState) (au ph : Option Nat) :
    (df = none →
      (update_asset_instance db iid df st au ph).instances.map
          AssetInstance.distinctive_features
        = db.instances.map AssetInstance.distinctive_features)
    ∧ (st = none →
      (update_asset_instance db iid df st au ph).instances.map AssetInstance.state
        = db.instances.map AssetInstance.state)
    ∧ (au = none →
      (update_asset_instance db iid df st au ph).instances.map
          AssetInstance.assigned_to_user_id
        = db.instances.map AssetInstance.assigned_to_user_id)
    ∧ (ph = none →
      (update_asset_instance db iid df st au ph).instances.map
          AssetInstance.photo_file_id
        = db.instances.map AssetInstance.photo_file_id)
    ∧ ∀ i : Nat, ∀ h1 : i < db.instances.length,
        ∀ h2 : i < (update_asset_instance db iid df st au ph).instances.length,
        ((update_asset_instance db iid df st au ph).instances[i]).assigned_to_user_id
            = none →
          (db.instances[i]).assigned_to_user_id = none := by
  refine ⟨?_, ?_, ?_, ?_, ?_⟩
  · intro hdf
    subst hdf
    exact updateFirst_map_of_preserve (fun y => y.id == iid)
      (applyInstUpd none st au ph) AssetInstance.distinctive_features
      (fun y => rfl) db.instances
  · intro hst
    subst hst
    exact updateFirst_map_of_preserve (fun y => y.id == iid)
      (applyInstUpd df none au ph) AssetInstance.state
      (fun y => rfl) db.instances
  · intro hau
    subst hau
    exact updateFirst_map_of_preserve (fun y => y.id == iid)
      (applyInstUpd df st none ph) AssetInstance.assigned_to_user_id
      (fun y => rfl) db.instances
  · intro hph
    subst hph
    exact updateFirst_map_of_preserve (fun y => y.id == iid)
      (applyInstUpd df st au none) AssetInstance.photo_file_id
      (fun y => rfl) db.instances
  · intro i h1 h2 hnone
    simp only [update_asset_instance] at hnone h2
    have hcase := updateFirst_getElem (fun y => y.id == iid)
      (applyInstUpd df st au ph) db.instances i h1 h2
    cases hcase with
    | inl he =>
      rw [he] at hnone
      exact hnone
    | inr he =>
      rw [he.1] at hnone
      cases hau : au with
      | none =>
        rw [hau] at hnone
        simpa [applyInstUpd] using hnone
      | some v =>
        rw [hau] at hnone
        simp [applyInstUpd] at hnone

theorem update_asset_instance_none_is_noop_witness :
    (update_asset_instance dbW 1 none none none none).instances.map
        AssetInstance.assigned_to_user_id
      = dbW.instances.map AssetInstance.assigned_to_user_id :=
  (update_asset_instance_none_is_noop dbW 1 none none none none).2.2.1 rfl

/-- C1: the issue operation never drives the stored quantity below zero — when
the requested quantity exceeds the aggregate quantity or the number of
available instances it fails with `insufficientStock` and returns the database
unchanged (no operation appended, no instance or asset touched), and on
success the new quantity of the asset is the old one minus the request and is
nonnegative. -/
theorem issue_no_negative_stock (db : DB) (now tg aid rid : Nat) (q : Nat)
    (u : User) (a : Asset)
    (hu : get_user_by_telegram_id db tg = some u)
    (ha : get_asset_by_id db aid = some a) :
    ((a.qty < (q : Int) ∨ (get_available_asset_instances db aid q).length < q) →
      confirm_outgoing db now tg aid rid q = (db, some WfErr.insufficientStock))
    ∧ (∀ db2, confirm_outgoing db now tg aid rid q = (db2, none) →
        asset_qty db2 aid = some (a.qty - q) ∧ 0 ≤ a.qty - (q : Int)) := by
  constructor
  · intro hcase
    simp only [confirm_outgoing, hu, ha]
    cases hcase with
    | inl hlt => rw [if_pos hlt]
    | inr hlen =>
      by_cases hlt : a.qty < (q : Int)
      · rw [if_pos hlt]
      · rw [if_neg hlt, if_pos hlen]
  · intro db2 hok
    simp only [confirm_outgoing, hu, ha] at hok
    by_cases hlt : a.qty < (q : Int)
    · rw [if_pos hlt] at hok
      simp at hok
    · rw [if_neg hlt] at hok
      by_cases hlen : (get_available_asset_instances db aid q).length < q
      · rw [if_pos hlen] at hok
        simp at hok
      · rw [if_neg hlen] at hok
        injection hok with hdb2 hres
        subst hdb2
        have hmid : get_asset_by_id
            (((get_available_asset_instances db aid q).take q).foldl
              (fun d i => update_asset_instance d i.id none
                (some AssetState.in_use) (some rid) none)
              (create_operation db now OperationType.outgoing aid q
                (some u.id) (some rid))) aid = some a := by
          unfold get_asset_by_id
          rw [foldl_update_asset_instance_assets, create_operation_assets]
          exact ha
        constructor
        · unfold asset_qty
          rw [get_asset_by_id_update_asset _ _ _ _ _ _ hmid]
          simp [applyAssetUpd]
        · omega

theorem issue_no_negative_stock_witness :
    confirm_outgoing dbW 7 101 1 2 5 = (dbW, some WfErr.insufficientStock) :=
  (issue_no_negative_stock dbW 7 101 1 2 5
    { id := 1, telegram_id := 101, role := UserRole.system_admin,
      status := UserStatus.active }
    { id := 1, name := "Hammer", qty := 1, state := AssetState.in_stock,
      return_photos := [] }
    (by decide) (by decide)).1 (Or.inl (by decide))

/-- C6: once `signed_at` is set on an operation, any further confirmation
attempt on it leaves the database — and hence the signature fields
`signed_by_user_id`, `signed_at`, `auto_signed` — unchanged, and an attempt by
the recipient of the operation (the only party entitled to confirm) is reported as
already confirmed. -/
theorem signature_immutable (db : DB) (now tg oid : Nat) (u : User)
    (op : Operation)
    (hu : get_user_by_telegram_id db tg = some u)
    (hop : get_operation_by_id db oid = some op)
    (hs : op.signed_at.isSome = true) :
    (confirm_receipt db now tg oid).1 = db
    ∧ (op.to_user_id = some u.id →
        (confirm_receipt db now tg oid).2 = some WfErr.alreadyProcessed) := by
  simp only [confirm_receipt, hu, hop]
  by_cases hto : op.to_user_id ≠ some u.id
  · rw [if_pos hto]
    exact ⟨rfl, fun h => absurd h hto⟩
  · rw [if_neg hto, if_pos hs]
    exact ⟨rfl, fun _ => rfl⟩

theorem signature_immutable_witness :
    (confirm_receipt dbW 9 104 2).1 = dbW :=
  (signature_immutable dbW 9 104 2
    ⟨4, 104, UserRole.worker, UserStatus.active⟩
    ⟨2, OperationType.transfer, 1, some 2, some 4, 1, some 0, some 4, some 5, false⟩
    (by decide) (by decide) (by decide)).1

/-- C4: when the requester no longer holds enough instances of the asset at
approval time, the approval auto-rejects — the status of the request becomes
`rejected` while the instances, the assets (including quantity) and the
operation log are untouched; no partial approval of fewer units happens. -/
theorem approval_revalidation_rejects (db : DB) (now tg pid : Nat)
    (p : PendingReturn) (u : User) (ap : User)
    (hp : get_pending_return_by_id db pid = some p)
    (hst : p.status = PRStatus.pending)
    (hu : get_user_by_telegram_id db tg = some u)
    (hrole : can_approve_return u.role = true)
    (hap : get_return_approver db = some ap)
    (hid : ap.id = u.id)
    (hshort : (get_asset_instances_assigned_to_user db p.from_user_id
        (some p.asset_id) (some p.qty)).length < p.qty) :
    (approve_return_callback db now tg pid).2 = ApproveRes.autoRejected
    ∧ (approve_return_callback db now tg pid).1.instances = db.instances
    ∧ (approve_return_callback db now tg pid).1.assets = db.assets
    ∧ (approve_return_callback db now tg pid).1.operations = db.operations
    ∧ (get_pending_return_by_id (approve_return_callback db now tg pid).1 pid).map
        PendingReturn.status = some PRStatus.rejected := by
  have hcall : approve_return_callback db now tg pid
      = (update_pending_return_status db pid PRStatus.rejected u.id,
         ApproveRes.autoRejected) := by
    simp only [approve_return_callback, hp, hu, hap]
    rw [if_neg (by simp [hst]), if_neg (by simp [hrole]), if_neg (by simp [hid]),
      if_pos hshort]
  rw [hcall]
  refine ⟨rfl, rfl, rfl, rfl, ?_⟩
  rw [get_pending_return_by_id_update db pid PRStatus.rejected u.id p hp]
  rfl

theorem approval_revalidation_rejects_witness :
    (approve_return_callback dbW 0 103 3).2 = ApproveRes.autoRejected :=
  (approval_revalidation_rejects dbW 0 103 3
    ⟨3, 2, 1, "Hammer", 5, PRStatus.pending, none⟩
    ⟨3, 103, UserRole.storekeeper, UserStatus.active⟩
    ⟨3, 103, UserRole.storekeeper, UserStatus.active⟩
    (by decide) (by decide) (by decide) (by decide) (by decide) (by decide)
    (by decide)).1

/-- C5: one sweep pass signs exactly the unsigned outgoing/transfer operations
whose timestamp is at least 24 hours old — setting `auto_signed = true` and
attributing the signature to the recipient `to_user_id` of the operation — touches
no other component, and running the sweep again on the result changes nothing
(each eligible operation is signed exactly once and the second run signs zero
additional operations). -/
theorem auto_sign_sweep_idempotent (db : DB) (now : Nat)
    (h : (db.operations.map Operation.id).Nodup) :
    (auto_sign_operations db now).operations
      = (db.operations.map fun o =>
          if isUnsignedOT o && eligibleB now o then signAuto now o.to_user_id o
          else o)
    ∧ (auto_sign_operations db now).users = db.users
    ∧ (auto_sign_operations db now).assets = db.assets
    ∧ (auto_sign_operations db now).instances = db.instances
    ∧ (auto_sign_operations db now).pendingReturns = db.pendingReturns
    ∧ auto_sign_operations (auto_sign_operations db now) now
        = auto_sign_operations db now := by
  have hchar := auto_sign_operations_char db now h
  refine ⟨by rw [hchar], by rw [hchar], by rw [hchar], by rw [hchar],
    by rw [hchar], ?_⟩
  have hskip : ∀ op ∈ get_unsigned_outgoing_operations (auto_sign_operations db now),
      eligibleB now op = false := by
    intro op hop
    rw [hchar] at hop
    simp only [get_unsigned_outgoing_operations] at hop
    obtain ⟨hmem, hun⟩ := List.mem_filter.mp hop
    obtain ⟨o, ho, hto⟩ := List.mem_map.mp hmem
    by_cases hc : (isUnsignedOT o && eligibleB now o) = true
    · rw [if_pos hc] at hto
      have hfalse : isUnsignedOT (signAuto now o.to_user_id o) = false := by
        simp [isUnsignedOT, signAuto]
      rw [hto, hun] at hfalse
      simp at hfalse
    · rw [if_neg hc] at hto
      rw [← hto] at hun ⊢
      cases he : eligibleB now o with
      | false => rfl
      | true => exact absurd (by simp [hun, he]) hc
  exact foldl_auto_sign_skip now _ hskip (auto_sign_operations db now)

theorem auto_sign_sweep_idempotent_witness :
    auto_sign_operations (auto_sign_operations dbW 90000) 90000
      = auto_sign_operations dbW 90000 :=
  (auto_sign_sweep_idempotent dbW 90000 (by decide)).2.2.2.2.2

theorem assigned_take_eq (db : DB) (uid aid n : Nat) :
    get_asset_instances_assigned_to_user db uid (some aid) (some n)
      = (db.instances.filter (fun i =>
          i.assigned_to_user_id == some uid && i.asset_id == aid)).take n := rfl

/-- C8: a transfer of `q` units from a user holding at least `q` instances of
the asset reassigns exactly the `q` selected instances to the recipient with
state `in_use`, leaves every other instance unchanged, appends one operation
of type `transfer`, and leaves the asset table — in particular the aggregate
quantity — and the pending returns unchanged. -/
theorem transfer_frame (db : DB) (now tg aid rid : Nat) (q : Nat) (u : User)
    (hnd : (db.instances.map AssetInstance.id).Nodup)
    (hu : get_user_by_telegram_id db tg = some u)
    (hq : (get_asset_instances_assigned_to_user db u.id (some aid) (some q)).length
        = q) :
    (transfer_confirm db now tg aid rid q).2 = none
    ∧ (transfer_confirm db now tg aid rid q).1.assets = db.assets
    ∧ (transfer_confirm db now tg aid rid q).1.pendingReturns = db.pendingReturns
    ∧ (transfer_confirm db now tg aid rid q).1.operations
        = db.operations ++
          [{ id := db.next_op_id, type := OperationType.transfer, asset_id := aid,
             from_user_id := some u.id, to_user_id := some rid, qty := q,
             timestamp := some now, signed_by_user_id := none, signed_at := none,
             auto_signed := false }]
    ∧ (transfer_confirm db now tg aid rid q).1.instances
        = db.instances.map (fun y =>
            if (get_asset_instances_assigned_to_user db u.id (some aid)
                (some q)).any (fun x => x.id == y.id)
              then { y with assigned_to_user_id := some rid,
                            state := AssetState.in_use }
              else y)
    ∧ ∀ x ∈ get_asset_instances_assigned_to_user db u.id (some aid) (some q),
        x.assigned_to_user_id = some u.id ∧ x.asset_id = aid := by
  have hsl : List.Sublist
      (get_asset_instances_assigned_to_user db u.id (some aid) (some q))
      db.instances := by
    rw [assigned_take_eq]
    exact List.Sublist.trans (List.take_sublist _ _) (List.filter_sublist _)
  have hselnd : ((get_asset_instances_assigned_to_user db u.id (some aid)
      (some q)).map AssetInstance.id).Nodup :=
    List.Nodup.sublist (List.Sublist.map AssetInstance.id hsl) hnd
  have hsub : ∀ x ∈ get_asset_instances_assigned_to_user db u.id (some aid)
      (some q), x ∈ db.instances := fun x hx => List.Sublist.subset hsl hx
  have hcall : transfer_confirm db now tg aid rid q
      = (create_operation
          ((get_asset_instances_assigned_to_user db u.id (some aid)
            (some q)).foldl
            (fun d i => update_asset_instance d i.id none
              (some AssetState.in_use) (some rid) none) db)
          now OperationType.transfer aid q (some u.id) (some rid), none) := by
    simp only [transfer_confirm, hu]
    rw [if_neg (by simp [hq]), List.take_of_length_le hq.le]
  rw [hcall]
  rw [foldl_update_asset_instance_char (some AssetState.in_use) (some rid)
    (get_asset_instances_assigned_to_user db u.id (some aid) (some q)) db
    hnd hselnd hsub]
  refine ⟨rfl, rfl, rfl, rfl, rfl, ?_⟩
  intro x hx
  have hx2 : x ∈ db.instances.filter (fun i =>
      i.assigned_to_user_id == some u.id && i.asset_id == aid) := by
    rw [assigned_take_eq] at hx
    exact List.Sublist.subset (List.take_sublist _ _) hx
  have hp := (List.mem_filter.mp hx2).2
  simp only [Bool.and_eq_true, beq_iff_eq] at hp
  exact hp

theorem transfer_frame_witness :
    (transfer_confirm dbW 0 102 1 4 1).1.assets = dbW.assets :=
  (transfer_frame dbW 0 102 1 4 1
    ⟨2, 102, UserRole.worker, UserStatus.active⟩
    (by decide) (by decide) (by decide)).2.1

theorem pr_transitions_ok_refl (db : DB) : pr_transitions_ok db db :=
  ⟨rfl, fun _ _ _ => Or.inl rfl⟩

theorem pr_transitions_ok_of_prs_eq (db db3 X : DB)
    (h : db3.pendingReturns = db.pendingReturns)
    (hr : pr_transitions_ok db3 X) : pr_transitions_ok db X := by
  unfold pr_transitions_ok at hr ⊢
  rw [← h]
  exact hr

theorem get_pending_return_id_eq (db : DB) (pid : Nat) (p : PendingReturn)
    (hp : get_pending_return_by_id db pid = some p) : p.id = pid := by
  have h2 := List.find?_some hp
  simpa using h2

theorem update_pending_return_status_transitions (db : DB) (pid : Nat)
    (s : PRStatus) (rb : Nat) (p : PendingReturn)
    (hp : get_pending_return_by_id db pid = some p)
    (hst : p.status = PRStatus.pending)
    (hs : s = PRStatus.approved ∨ s = PRStatus.rejected) :
    pr_transitions_ok db (update_pending_return_status db pid s rb) := by
  constructor
  · simp [update_pending_return_status, updateFirst_length]
  · intro i h1 h2
    simp only [update_pending_return_status] at h2 ⊢
    have hcase := updateFirst_getElem (fun q => q.id == pid)
      (fun q => { q with status := s, resolved_by := some rb })
      db.pendingReturns i h1 h2
    cases hcase with
    | inl he =>
      left
      rw [he]
    | inr he =>
      right
      have hpe : p = db.pendingReturns[i] := by
        have hfind := he.2
        rw [show get_pending_return_by_id db pid
            = db.pendingReturns.find? (fun q => q.id == pid) from rfl] at hp
        rw [hp] at hfind
        exact Option.some.inj hfind
      constructor
      · rw [← hpe]
        exact hst
      · rw [he.1]
        cases hs with
        | inl h => rw [h]; left; rfl
        | inr h => rw [h]; right; rfl

theorem update_status_transitions_general (db X : DB) (s : PRStatus) (rb : Nat)
    (p : PendingReturn)
    (hX : X.pendingReturns = db.pendingReturns)
    (hp : get_pending_return_by_id db p.id = some p)
    (hst : p.status = PRStatus.pending)
    (hs : s = PRStatus.approved ∨ s = PRStatus.rejected) :
    pr_transitions_ok db (update_pending_return_status X p.id s rb) := by
  refine pr_transitions_ok_of_prs_eq db X _ hX ?_
  refine update_pending_return_status_transitions X p.id s rb p ?_ hst hs
  unfold get_pending_return_by_id at hp ⊢
  rw [hX]
  exact hp

theorem do_approve_return_transitions (db : DB) (now : Nat) (p : PendingReturn)
    (uid : Nat) (photo : Option Nat)
    (hp : get_pending_return_by_id db p.id = some p)
    (hst : p.status = PRStatus.pending) :
    pr_transitions_ok db (do_approve_return db now p uid photo).2 := by
  by_cases hins : (get_asset_instances_assigned_to_user db p.from_user_id
      (some p.asset_id) (some p.qty)).length < p.qty
  · have hres : (do_approve_return db now p uid photo).2
        = update_pending_return_status db p.id PRStatus.rejected uid := by
      simp only [do_approve_return]
      rw [if_pos hins]
    rw [hres]
    exact update_status_transitions_general db db PRStatus.rejected uid p rfl hp
      hst (Or.inr rfl)
  · cases hget : get_asset_by_id db p.asset_id with
    | none =>
      have hres : (do_approve_return db now p uid photo).2 = db := by
        simp only [do_approve_return, hget]
        rw [if_neg hins]
      rw [hres]
      exact pr_transitions_ok_refl db
    | some asset =>
      cases photo with
      | none =>
        have hres : (do_approve_return db now p uid none).2
            = update_pending_return_status
                (create_operation
                  (update_asset
                    (((get_asset_instances_assigned_to_user db p.from_user_id
                        (some p.asset_id) (some p.qty)).take p.qty).foldl
                      (fun d i => update_asset_instance d i.id none
                        (some AssetState.in_stock) none none) db)
                    p.asset_id none (some (asset.qty + p.qty)) none)
                  now OperationType.ret p.asset_id p.qty (some p.from_user_id)
                  none)
                p.id PRStatus.approved uid := by
          simp only [do_approve_return, hget]
          rw [if_neg hins]
        rw [hres]
        refine update_status_transitions_general db _ PRStatus.approved uid p ?_
          hp hst (Or.inl rfl)
        rw [create_operation_pendingReturns, update_asset_pendingReturns,
          foldl_update_asset_instance_pendingReturns]
      | some ph =>
        have hres : (do_approve_return db now p uid (some ph)).2
            = update_pending_return_status
                (create_operation
                  (update_asset
                    (((get_asset_instances_assigned_to_user db p.from_user_id
                        (some p.asset_id) (some p.qty)).take p.qty).foldl
                      (fun d i => update_asset_instance d i.id none
                        (some AssetState.in_stock) none none)
                      (add_asset_return_photo db p.asset_id ph))
                    p.asset_id none (some (asset.qty + p.qty)) none)
                  now OperationType.ret p.asset_id p.qty (some p.from_user_id)
                  none)
                p.id PRStatus.approved uid := by
          simp only [do_approve_return, hget]
          rw [if_neg hins]
        rw [hres]
        refine update_status_transitions_general db _ PRStatus.approved uid p ?_
          hp hst (Or.inl rfl)
        rw [create_operation_pendingReturns, update_asset_pendingReturns,
          foldl_update_asset_instance_pendingReturns,
          add_asset_return_photo_pendingReturns]

theorem approve_return_callback_transitions (db : DB) (now tg pid : Nat) :
    pr_transitions_ok db (approve_return_callback db now tg pid).1 := by
  cases hp : get_pending_return_by_id db pid with
  | none =>
    have hres : (approve_return_callback db now tg pid).1 = db := by
      simp only [approve_return_callback, hp]
    rw [hres]
    exact pr_transitions_ok_refl db
  | some pending =>
    by_cases hst : pending.status ≠ PRStatus.pending
    · have hres : (approve_return_callback db now tg pid).1 = db := by
        simp only [approve_return_callback, hp]
        rw [if_pos hst]
      rw [hres]
      exact pr_transitions_ok_refl db
    · have hst2 : pending.status = PRStatus.pending := not_not.mp hst
      have hpid : pending.id = pid := get_pending_return_id_eq db pid pending hp
      have hp2 : get_pending_return_by_id db pending.id = some pending := by
        rw [hpid]
        exact hp
      cases hu : get_user_by_telegram_id db tg with
      | none =>
        have hres : (approve_return_callback db now tg pid).1 = db := by
          simp only [approve_return_callback, hp, hu]
          rw [if_neg hst]
        rw [hres]
        exact pr_transitions_ok_refl db
      | some du =>
        by_cases hcan : ¬ can_approve_return du.role
        · have hres : (approve_return_callback db now tg pid).1 = db := by
            simp only [approve_return_callback, hp, hu]
            rw [if_neg hst, if_pos hcan]
          rw [hres]
          exact pr_transitions_ok_refl db
        · cases hap : get_return_approver db with
          | none =>
            have hres : (approve_return_callback db now tg pid).1 = db := by
              simp only [approve_return_callback, hp, hu, hap]
              rw [if_neg hst, if_neg hcan]
            rw [hres]
            exact pr_transitions_ok_refl db
          | some ap =>
            by_cases hapid : ap.id ≠ du.id
            · have hres : (approve_return_callback db now tg pid).1 = db := by
                simp only [approve_return_callback, hp, hu, hap]
                rw [if_neg hst, if_neg hcan, if_pos hapid]
              rw [hres]
              exact pr_transitions_ok_refl db
            · by_cases hins : (get_asset_instances_assigned_to_user db
                  pending.from_user_id (some pending.asset_id)
                  (some pending.qty)).length < pending.qty
              · have hres : (approve_return_callback db now tg pid).1
                    = update_pending_return_status db pid PRStatus.rejected
                        du.id := by
                  simp only [approve_return_callback, hp, hu, hap]
                  rw [if_neg hst, if_neg hcan, if_neg hapid, if_pos hins]
                rw [hres, ← hpid]
                exact update_status_transitions_general db db PRStatus.rejected
                  du.id pending rfl hp2 hst2 (Or.inr rfl)
              · by_cases hrole : du.role = UserRole.storekeeper
                · have hres : (approve_return_callback db now tg pid).1 = db := by
                    simp only [approve_return_callback, hp, hu, hap]
                    rw [if_neg hst, if_neg hcan, if_neg hapid, if_neg hins,
                      if_pos hrole]
                  rw [hres]
                  exact pr_transitions_ok_refl db
                · have hres : (approve_return_callback db now tg pid).1
                      = (do_approve_return db now pending du.id none).2 := by
                    simp only [approve_return_callback, hp, hu, hap]
                    rw [if_neg hst, if_neg hcan, if_neg hapid, if_neg hins,
                      if_neg hrole]
                    by_cases hr : (do_approve_return db now pending du.id none).1
                        = true
                    · rw [if_pos hr]
                    · rw [if_neg hr]
                  rw [hres]
                  exact do_approve_return_transitions db now pending du.id none
                    hp2 hst2

theorem reject_return_callback_transitions (db : DB) (tg pid : Nat) :
    pr_transitions_ok db (reject_return_callback db tg pid).1 := by
  cases hp : get_pending_return_by_id db pid with
  | none =>
    have hres : (reject_return_callback db tg pid).1 = db := by
      simp only [reject_return_callback, hp]
    rw [hres]
    exact pr_transitions_ok_refl db
  | some pending =>
    by_cases hst : pending.status ≠ PRStatus.pending
    · have hres : (reject_return_callback db tg pid).1 = db := by
        simp only [reject_return_callback, hp]
        rw [if_pos hst]
      rw [hres]
      exact pr_transitions_ok_refl db
    · have hst2 : pending.status = PRStatus.pending := not_not.mp hst
      have hpid : pending.id = pid := get_pending_return_id_eq db pid pending hp
      have hp2 : get_pending_return_by_id db pending.id = some pending := by
        rw [hpid]
        exact hp
      cases hu : get_user_by_telegram_id db tg with
      | none =>
        have hres : (reject_return_callback db tg pid).1 = db := by
          simp only [reject_return_callback, hp, hu]
          rw [if_neg hst]
        rw [hres]
        exact pr_transitions_ok_refl db
      | some du =>
        by_cases hcan : ¬ can_approve_return du.role
        · have hres : (reject_return_callback db tg pid).1 = db := by
            simp only [reject_return_callback, hp, hu]
            rw [if_neg hst, if_pos hcan]
          rw [hres]
          exact pr_transitions_ok_refl db
        · cases hap : get_return_approver db with
          | none =>
            have hres : (reject_return_callback db tg pid).1 = db := by
              simp only [reject_return_callback, hp, hu, hap]
              rw [if_neg hst, if_neg hcan]
            rw [hres]
            exact pr_transitions_ok_refl db
          | some ap =>
            by_cases hapid : ap.id ≠ du.id
            · have hres : (reject_return_callback db tg pid).1 = db := by
                simp only [reject_return_callback, hp, hu, hap]
                rw [if_neg hst, if_neg hcan, if_pos hapid]
              rw [hres]
              exact pr_transitions_ok_refl db
            · have hres : (reject_return_callback db tg pid).1
                  = update_pending_return_status db pid PRStatus.rejected
                      du.id := by
                simp only [reject_return_callback, hp, hu, hap]
                rw [if_neg hst, if_neg hcan, if_neg hapid]
              rw [hres, ← hpid]
              exact update_status_transitions_general db db PRStatus.rejected
                du.id pending rfl hp2 hst2 (Or.inr rfl)

theorem storekeeper_return_photo_transitions (db : DB) (now tg pid photo : Nat) :
    pr_transitions_ok db (storekeeper_return_photo_handler db now tg pid photo).1 := by
  cases hu : get_user_by_telegram_id db tg with
  | none =>
    have hres : (storekeeper_return_photo_handler db now tg pid photo).1 = db := by
      simp only [storekeeper_return_photo_handler, hu]
    rw [hres]
    exact pr_transitions_ok_refl db
  | some du =>
    by_cases hrole : du.role ≠ UserRole.storekeeper
    · have hres : (storekeeper_return_photo_handler db now tg pid photo).1 = db := by
        simp only [storekeeper_return_photo_handler, hu]
        rw [if_pos hrole]
      rw [hres]
      exact pr_transitions_ok_refl db
    · cases hap : get_return_approver db with
      | none =>
        have hres : (storekeeper_return_photo_handler db now tg pid photo).1
            = db := by
          simp only [storekeeper_return_photo_handler, hu, hap]
          rw [if_neg hrole]
        rw [hres]
        exact pr_transitions_ok_refl db
      | some ap =>
        by_cases hapid : ap.id ≠ du.id
        · have hres : (storekeeper_return_photo_handler db now tg pid photo).1
              = db := by
            simp only [storekeeper_return_photo_handler, hu, hap]
            rw [if_neg hrole, if_pos hapid]
          rw [hres]
          exact pr_transitions_ok_refl db
        · cases hp : get_pending_return_by_id db pid with
          | none =>
            have hres : (storekeeper_return_photo_handler db now tg pid photo).1
                = db := by
              simp only [storekeeper_return_photo_handler, hu, hap, hp]
              rw [if_neg hrole, if_neg hapid]
            rw [hres]
            exact pr_transitions_ok_refl db
          | some pending =>
            by_cases hst : pending.status ≠ PRStatus.pending
            · have hres : (storekeeper_return_photo_handler db now tg pid
                  photo).1 = db := by
                simp only [storekeeper_return_photo_handler, hu, hap, hp]
                rw [if_neg hrole, if_neg hapid, if_pos hst]
              rw [hres]
              exact pr_transitions_ok_refl db
            · have hst2 : pending.status = PRStatus.pending := not_not.mp hst
              have hpid : pending.id = pid :=
                get_pending_return_id_eq db pid pending hp
              have hp2 : get_pending_return_by_id db pending.id = some pending := by
                rw [hpid]
                exact hp
              have hres : (storekeeper_return_photo_handler db now tg pid photo).1
                  = (do_approve_return db now pending du.id (some photo)).2 := by
                simp only [storekeeper_return_photo_handler, hu, hap, hp]
                rw [if_neg hrole, if_neg hapid, if_neg hst]
                by_cases hr : (do_approve_return db now pending du.id
                    (some photo)).1 = true
                · rw [if_pos hr]
                · rw [if_neg hr]
              rw [hres]
              exact do_approve_return_transitions db now pending du.id
                (some photo) hp2 hst2

/-- C7: pending returns move only from `pending` to the terminal states
`approved` or `rejected` under the approve, reject and storekeeper-photo
handlers, and any attempt to act on a request whose status is not `pending`
fails with AlreadyProcessed and returns the database unchanged (no request
status, instance or asset quantity is touched). -/
theorem pending_return_state_machine :
    (∀ db : DB, ∀ now tg pid : Nat, ∀ p : PendingReturn,
      get_pending_return_by_id db pid = some p → p.status ≠ PRStatus.pending →
      approve_return_callback db now tg pid = (db, ApproveRes.alreadyProcessed))
    ∧ (∀ db : DB, ∀ tg pid : Nat, ∀ p : PendingReturn,
      get_pending_return_by_id db pid = some p → p.status ≠ PRStatus.pending →
      reject_return_callback db tg pid = (db, ApproveRes.alreadyProcessed))
    ∧ (∀ db : DB, ∀ now tg pid photo : Nat, ∀ p : PendingReturn, ∀ u ap : User,
      get_user_by_telegram_id db tg = some u → u.role = UserRole.storekeeper →
      get_return_approver db = some ap → ap.id = u.id →
      get_pending_return_by_id db pid = some p → p.status ≠ PRStatus.pending →
      storekeeper_return_photo_handler db now tg pid photo
        = (db, ApproveRes.alreadyProcessed))
    ∧ (∀ db : DB, ∀ now tg pid : Nat,
        pr_transitions_ok db (approve_return_callback db now tg pid).1)
    ∧ (∀ db : DB, ∀ tg pid : Nat,
        pr_transitions_ok db (reject_return_callback db tg pid).1)
    ∧ (∀ db : DB, ∀ now tg pid photo : Nat,
        pr_transitions_ok db
          (storekeeper_return_photo_handler db now tg pid photo).1) := by
  refine ⟨?_, ?_, ?_, approve_return_callback_transitions,
    reject_return_callback_transitions, storekeeper_return_photo_transitions⟩
  · intro db now tg pid p hp hst
    simp only [approve_return_callback, hp]
    rw [if_pos hst]
  · intro db tg pid p hp hst
    simp only [reject_return_callback, hp]
    rw [if_pos hst]
  · intro db now tg pid photo p u ap hu hrole hap hapid hp hst
    simp only [storekeeper_return_photo_handler, hu, hap, hp]
    rw [if_neg (by simp [hrole]), if_neg (by simp [hapid]), if_pos hst]

theorem pending_return_state_machine_witness :
    approve_return_callback dbW 0 999 2 = (dbW, ApproveRes.alreadyProcessed) :=
  pending_return_state_machine.1 dbW 0 999 2
    ⟨2, 2, 1, "Hammer", 1, PRStatus.approved, some 1⟩ (by decide) (by decide)

@[simp] theorem create_operation_operations (db : DB) (now : Nat)
    (t : OperationType) (aid q : Nat) (fu tu : Option Nat) :
    (create_operation db now t aid q fu tu).operations
      = db.operations ++
        [{ id := db.next_op_id, type := t, asset_id := aid, from_user_id := fu,
           to_user_id := tu, qty := q, timestamp := some now,
           signed_by_user_id := none, signed_at := none,
           auto_signed := false }] := rfl

@[simp] theorem update_asset_next_op_id (db : DB) (aid : Nat) (n : Option String)
    (q : Option Int) (s : Option AssetState) :
    (update_asset db aid n q s).next_op_id = db.next_op_id := rfl

@[simp] theorem add_asset_return_photo_next_op_id (db : DB) (aid p : Nat) :
    (add_asset_return_photo db aid p).next_op_id = db.next_op_id := rfl

theorem get_asset_by_id_create_operation (db : DB) (now : Nat)
    (t : OperationType) (aid2 q : Nat) (fu tu : Option Nat) (aid : Nat) :
    get_asset_by_id (create_operation db now t aid2 q fu tu) aid
      = get_asset_by_id db aid := rfl

theorem get_asset_by_id_update_pending (db : DB) (pid : Nat) (s : PRStatus)
    (rb : Nat) (aid : Nat) :
    get_asset_by_id (update_pending_return_status db pid s rb) aid
      = get_asset_by_id db aid := rfl

theorem get_asset_by_id_fold_inst (df : Option String) (st : Option AssetState)
    (au ph : Option Nat) (sel : List AssetInstance) (db : DB) (aid : Nat) :
    get_asset_by_id
      (sel.foldl (fun d i => update_asset_instance d i.id df st au ph) db) aid
      = get_asset_by_id db aid := by
  unfold get_asset_by_id
  rw [foldl_update_asset_instance_assets]

theorem get_pending_by_id_create_operation (db : DB) (now : Nat)
    (t : OperationType) (aid q : Nat) (fu tu : Option Nat) (pid : Nat) :
    get_pending_return_by_id (create_operation db now t aid q fu tu) pid
      = get_pending_return_by_id db pid := rfl

theorem get_pending_by_id_update_asset (db : DB) (aid : Nat) (n : Option String)
    (q : Option Int) (s : Option AssetState) (pid : Nat) :
    get_pending_return_by_id (update_asset db aid n q s) pid
      = get_pending_return_by_id db pid := rfl

theorem get_pending_by_id_add_photo (db : DB) (aid p pid : Nat) :
    get_pending_return_by_id (add_asset_return_photo db aid p) pid
      = get_pending_return_by_id db pid := rfl

theorem get_pending_by_id_fold_inst (df : Option String) (st : Option AssetState)
    (au ph : Option Nat) (sel : List AssetInstance) (db : DB) (pid : Nat) :
    get_pending_return_by_id
      (sel.foldl (fun d i => update_asset_instance d i.id df st au ph) db) pid
      = get_pending_return_by_id db pid := by
  unfold get_pending_return_by_id
  rw [foldl_update_asset_instance_pendingReturns]

theorem do_approve_return_success (db : DB) (now : Nat) (p : PendingReturn)
    (uid : Nat) (photo : Option Nat) (a : Asset)
    (hins : ¬ (get_asset_instances_assigned_to_user db p.from_user_id
        (some p.asset_id) (some p.qty)).length < p.qty)
    (ha : get_asset_by_id db p.asset_id = some a)
    (hp : get_pending_return_by_id db p.id = some p) :
    (do_approve_return db now p uid photo).1 = true
    ∧ asset_qty (do_approve_return db now p uid photo).2 p.asset_id
        = some (a.qty + p.qty)
    ∧ (get_pending_return_by_id (do_approve_return db now p uid photo).2
        p.id).map PendingReturn.status = some PRStatus.approved
    ∧ (do_approve_return db now p uid photo).2.operations
        = db.operations ++
          [{ id := db.next_op_id, type := OperationType.ret,
             asset_id := p.asset_id, from_user_id := some p.from_user_id,
             to_user_id := none, qty := p.qty, timestamp := some now,
             signed_by_user_id := none, signed_at := none,
             auto_signed := false }] := by
  cases photo with
  | none =>
    have hres : do_approve_return db now p uid none
        = (true, update_pending_return_status
            (create_operation
              (update_asset
                (((get_asset_instances_assigned_to_user db p.from_user_id
                    (some p.asset_id) (some p.qty)).take p.qty).foldl
                  (fun d i => update_asset_instance d i.id none
                    (some AssetState.in_stock) none none) db)
                p.asset_id none (some (a.qty + p.qty)) none)
              now OperationType.ret p.asset_id p.qty (some p.from_user_id) none)
            p.id PRStatus.approved uid) := by
      simp only [do_approve_return, ha]
      rw [if_neg hins]
    rw [hres]
    have hfold : get_asset_by_id
        (((get_asset_instances_assigned_to_user db p.from_user_id
            (some p.asset_id) (some p.qty)).take p.qty).foldl
          (fun d i => update_asset_instance d i.id none
            (some AssetState.in_stock) none none) db) p.asset_id = some a := by
      rw [get_asset_by_id_fold_inst]
      exact ha
    have hp3 : get_pending_return_by_id
        (create_operation
          (update_asset
            (((get_asset_instances_assigned_to_user db p.from_user_id
                (some p.asset_id) (some p.qty)).take p.qty).foldl
              (fun d i => update_asset_instance d i.id none
                (some AssetState.in_stock) none none) db)
            p.asset_id none (some (a.qty + p.qty)) none)
          now OperationType.ret p.asset_id p.qty (some p.from_user_id) none)
        p.id = some p := by
      rw [get_pending_by_id_create_operation, get_pending_by_id_update_asset,
        get_pending_by_id_fold_inst]
      exact hp
    refine ⟨rfl, ?_, ?_, ?_⟩
    · unfold asset_qty
      rw [get_asset_by_id_update_pending, get_asset_by_id_create_operation,
        get_asset_by_id_update_asset _ _ _ _ _ _ hfold]
      simp [applyAssetUpd]
    · rw [get_pending_return_by_id_update _ _ _ _ _ hp3]
      rfl
    · rw [update_pending_return_status_operations, create_operation_operations,
        update_asset_operations, foldl_update_asset_instance_operations,
        update_asset_next_op_id, foldl_update_asset_instance_next_op_id]
  | some ph =>
    have hres : do_approve_return db now p uid (some ph)
        = (true, update_pending_return_status
            (create_operation
              (update_asset
                (((get_asset_instances_assigned_to_user db p.from_user_id
                    (some p.asset_id) (some p.qty)).take p.qty).foldl
                  (fun d i => update_asset_instance d i.id none
                    (some AssetState.in_stock) none none)
                  (add_asset_return_photo db p.asset_id ph))
                p.asset_id none (some (a.qty + p.qty)) none)
              now OperationType.ret p.asset_id p.qty (some p.from_user_id) none)
            p.id PRStatus.approved uid) := by
      simp only [do_approve_return, ha]
      rw [if_neg hins]
    rw [hres]
    have hfold : get_asset_by_id
        (((get_asset_instances_assigned_to_user db p.from_user_id
            (some p.asset_id) (some p.qty)).take p.qty).foldl
          (fun d i => update_asset_instance d i.id none
            (some AssetState.in_stock) none none)
          (add_asset_return_photo db p.asset_id ph)) p.asset_id
        = some { a with return_photos := a.return_photos ++ [ph] } := by
      rw [get_asset_by_id_fold_inst]
      exact get_asset_by_id_add_photo db p.asset_id ph a ha
    have hp3 : get_pending_return_by_id
        (create_operation
          (update_asset
            (((get_asset_instances_assigned_to_user db p.from_user_id
                (some p.asset_id) (some p.qty)).take p.qty).foldl
              (fun d i => update_asset_instance d i.id none
                (some AssetState.in_stock) none none)
              (add_asset_return_photo db p.asset_id ph))
            p.asset_id none (some (a.qty + p.qty)) none)
          now OperationType.ret p.asset_id p.qty (some p.from_user_id) none)
        p.id = some p := by
      rw [get_pending_by_id_create_operation, get_pending_by_id_update_asset,
        get_pending_by_id_fold_inst, get_pending_by_id_add_photo]
      exact hp
    refine ⟨rfl, ?_, ?_, ?_⟩
    · unfold asset_qty
      rw [get_asset_by_id_update_pending, get_asset_by_id_create_operation,
        get_asset_by_id_update_asset _ _ _ _ _ _ hfold]
      simp [applyAssetUpd]
    · rw [get_pending_return_by_id_update _ _ _ _ _ hp3]
      rfl
    · rw [update_pending_return_status_operations, create_operation_operations,
        update_asset_operations, foldl_update_asset_instance_operations,
        update_asset_next_op_id, foldl_update_asset_instance_next_op_id,
        add_asset_return_photo_operations, add_asset_return_photo_next_op_id]

/-- C9: a pending return is approved or rejected only by the single designated
return approver holding role storekeeper or system_admin — any other caller is
refused with the database unchanged; a storekeeper approver is first asked for
a photo with no effect applied yet, and the approval effect (quantity
increment, return operation, status flip) is applied only when the photo
arrives, while an approval by the system administrator applies the effect
immediately, no photo required. -/
theorem return_approval_gating :
    (∀ db : DB, ∀ now tg pid : Nat, ∀ p : PendingReturn, ∀ u : User,
      get_pending_return_by_id db pid = some p → p.status = PRStatus.pending →
      get_user_by_telegram_id db tg = some u →
      (can_approve_return u.role = false
        ∨ ∀ ap : User, get_return_approver db = some ap → ap.id ≠ u.id) →
      approve_return_callback db now tg pid = (db, ApproveRes.unauthorized))
    ∧ (∀ db : DB, ∀ tg pid : Nat, ∀ p : PendingReturn, ∀ u : User,
      get_pending_return_by_id db pid = some p → p.status = PRStatus.pending →
      get_user_by_telegram_id db tg = some u →
      (can_approve_return u.role = false
        ∨ ∀ ap : User, get_return_approver db = some ap → ap.id ≠ u.id) →
      reject_return_callback db tg pid = (db, ApproveRes.unauthorized))
    ∧ (∀ db : DB, ∀ now tg pid : Nat, ∀ p : PendingReturn, ∀ u : User,
      get_pending_return_by_id db pid = some p → p.status = PRStatus.pending →
      get_user_by_telegram_id db tg = some u →
      u.role = UserRole.storekeeper → get_return_approver db = some u →
      ¬ (get_asset_instances_assigned_to_user db p.from_user_id
          (some p.asset_id) (some p.qty)).length < p.qty →
      approve_return_callback db now tg pid = (db, ApproveRes.photoRequested))
    ∧ (∀ db : DB, ∀ now tg pid : Nat, ∀ p : PendingReturn, ∀ u : User,
      ∀ a : Asset,
      get_pending_return_by_id db pid = some p → p.status = PRStatus.pending →
      get_user_by_telegram_id db tg = some u →
      u.role = UserRole.system_admin → get_return_approver db = some u →
      ¬ (get_asset_instances_assigned_to_user db p.from_user_id
          (some p.asset_id) (some p.qty)).length < p.qty →
      get_asset_by_id db p.asset_id = some a →
      (approve_return_callback db now tg pid).2 = ApproveRes.approved
      ∧ asset_qty (approve_return_callback db now tg pid).1 p.asset_id
          = some (a.qty + p.qty)
      ∧ (get_pending_return_by_id (approve_return_callback db now tg pid).1
          p.id).map PendingReturn.status = some PRStatus.approved
      ∧ (approve_return_callback db now tg pid).1.operations
          = db.operations ++
            [{ id := db.next_op_id, type := OperationType.ret,
               asset_id := p.asset_id, from_user_id := some p.from_user_id,
               to_user_id := none, qty := p.qty, timestamp := some now,
               signed_by_user_id := none, signed_at := none,
               auto_signed := false }])
    ∧ (∀ db : DB, ∀ now tg pid photo : Nat, ∀ p : PendingReturn, ∀ u : User,
      ∀ a : Asset,
      get_pending_return_by_id db pid = some p → p.status = PRStatus.pending →
      get_user_by_telegram_id db tg = some u →
      u.role = UserRole.storekeeper → get_return_approver db = some u →
      ¬ (get_asset_instances_assigned_to_user db p.from_user_id
          (some p.asset_id) (some p.qty)).length < p.qty →
      get_asset_by_id db p.asset_id = some a →
      (storekeeper_return_photo_handler db now tg pid photo).2
          = ApproveRes.approved
      ∧ asset_qty (storekeeper_return_photo_handler db now tg pid photo).1
          p.asset_id = some (a.qty + p.qty)
      ∧ (get_pending_return_by_id
          (storekeeper_return_photo_handler db now tg pid photo).1 p.id).map
          PendingReturn.status = some PRStatus.approved
      ∧ (storekeeper_return_photo_handler db now tg pid photo).1.operations
          = db.operations ++
            [{ id := db.next_op_id, type := OperationType.ret,
               asset_id := p.asset_id, from_user_id := some p.from_user_id,
               to_user_id := none, qty := p.qty, timestamp := some now,
               signed_by_user_id := none, signed_at := none,
               auto_signed := false }]) := by
  refine ⟨?_, ?_, ?_, ?_, ?_⟩
  · intro db now tg pid p u hp hst hu hno
    simp only [approve_return_callback, hp, hu]
    rw [if_neg (by simp [hst])]
    by_cases hcan : can_approve_return u.role = true
    · rw [if_neg (by simp [hcan])]
      cases hap : get_return_approver db with
      | none => rfl
      | some ap =>
        cases hno with
        | inl hfalse => rw [hcan] at hfalse; simp at hfalse
        | inr hne => simp [hne ap hap]
    · rw [if_pos (by simpa using hcan)]
  · intro db tg pid p u hp hst hu hno
    simp only [reject_return_callback, hp, hu]
    rw [if_neg (by simp [hst])]
    by_cases hcan : can_approve_return u.role = true
    · rw [if_neg (by simp [hcan])]
      cases hap : get_return_approver db with
      | none => rfl
      | some ap =>
        cases hno with
        | inl hfalse => rw [hcan] at hfalse; simp at hfalse
        | inr hne => simp [hne ap hap]
    · rw [if_pos (by simpa using hcan)]
  · intro db now tg pid p u hp hst hu hrole hap hsuff
    simp only [approve_return_callback, hp, hu, hap]
    rw [if_neg (by simp [hst]),
      if_neg (by simp [can_approve_return, hrole]),
      if_neg (by simp), if_neg hsuff, if_pos hrole]
  · intro db now tg pid p u a hp hst hu hrole hap hsuff ha
    have hpid : p.id = pid := get_pending_return_id_eq db pid p hp
    have hp2 : get_pending_return_by_id db p.id = some p := by
      rw [hpid]
      exact hp
    have hsucc := do_approve_return_success db now p u.id none a hsuff ha hp2
    have hcall : approve_return_callback db now tg pid
        = ((do_approve_return db now p u.id none).2, ApproveRes.approved) := by
      simp only [approve_return_callback, hp, hu, hap]
      rw [if_neg (by simp [hst]),
        if_neg (by simp [can_approve_return, hrole]),
        if_neg (by simp), if_neg hsuff, if_neg (by simp [hrole]),
        if_pos hsucc.1]
    rw [hcall]
    exact ⟨rfl, hsucc.2.1, hsucc.2.2.1, hsucc.2.2.2⟩
  · intro db now tg pid photo p u a hp hst hu hrole hap hsuff ha
    have hpid : p.id = pid := get_pending_return_id_eq db pid p hp
    have hp2 : get_pending_return_by_id db p.id = some p := by
      rw [hpid]
      exact hp
    have hsucc := do_approve_return_success db now p u.id (some photo) a hsuff
      ha hp2
    have hcall : storekeeper_return_photo_handler db now tg pid photo
        = ((do_approve_return db now p u.id (some photo)).2,
           ApproveRes.approved) := by
      simp only [storekeeper_return_photo_handler, hu, hap, hp]
      rw [if_neg (by simp [hrole]), if_neg (by simp), if_neg (by simp [hst]),
        if_pos hsucc.1]
    rw [hcall]
    exact ⟨rfl, hsucc.2.1, hsucc.2.2.1, hsucc.2.2.2⟩

theorem return_approval_gating_witness :
    approve_return_callback dbW 0 103 1 = (dbW, ApproveRes.photoRequested) :=
  return_approval_gating.2.2.1 dbW 0 103 1
    ⟨1, 2, 1, "Hammer", 1, PRStatus.pending, none⟩
    ⟨3, 103, UserRole.storekeeper, UserStatus.active⟩
    (by decide) (by decide) (by decide) (by decide) (by decide) (by decide)

/-- C2: the conservation invariant of spec §8 is broken by return approval.
In `dbW2` conservation holds (qty 0, one live assigned instance, one live
instance in total); the approval of the pending return by the administrator
succeeds, but because `update_asset_instance` ignores a null
`assigned_to_user_id` argument the returned instance stays assigned to the
requester while the quantity is incremented, so afterwards
`qty + assigned-live = 1 + 1 ≠ 1 = live` and conservation is false. -/
theorem conservation_broken_by_return_approval :
    conservationB dbW2 1 = true
    ∧ (approve_return_callback dbW2 0 101 1).2 = ApproveRes.approved
    ∧ conservationB (approve_return_callback dbW2 0 101 1).1 1 = false := by
  decide

/-- C3: the issue/return round trip of spec §8 restores the asset quantity but
does not restore the instances to the warehouse.  Starting from `dbC3`
(quantity 2, two unassigned instances), issuing 2 units to the worker and then
approving the return of 2 units by the worker leaves the aggregate quantity back at
2, yet both instances still carry `assigned_to_user_id = some 2` — not null as
the specification demands — because `update_asset_instance` ignores the null
assignment argument passed by `_do_approve_return`. -/
theorem round_trip_return_keeps_assignment :
    (confirm_outgoing dbC3 0 101 1 2 2).2 = none
    ∧ (return_confirm dbC3_issued 102 1 "Drill" 2).2 = none
    ∧ (approve_return_callback dbC3_requested 1 101 1).2 = ApproveRes.approved
    ∧ asset_qty dbC3 1 = some 2
    ∧ asset_qty dbC3_issued 1 = some 0
    ∧ asset_qty dbC3_final 1 = some 2
    ∧ dbC3_final.instances.map AssetInstance.assigned_to_user_id
        = [some 2, some 2]
    ∧ dbC3_final.instances.map AssetInstance.state
        = [AssetState.in_stock, AssetState.in_stock] := by
  decide

end Bot
